import Mathlib

/-!
Verification development for the BOK-AI credential-extraction engine.

The JavaScript sources under src/src/utils (credentialExtractor.js and
jsonFormatter.js) are shallowly embedded below.  Strings are modelled as
List Char (one Char per UTF-16 code unit: every character that occurs in
the sources and in the inputs used here lies in the basic multilingual
plane).  The regular expressions of the source are translated one by one
into an explicit backtracking matcher (inductive RE below) whose outcome
order reproduces the JavaScript semantics for the features those regexes
use: ordered alternation, greedy and lazy character-class quantifiers,
optional groups and capture groups.  JavaScript exec on a regex WITHOUT
the g flag ignores lastIndex and always returns the first match of the
whole string; exec on a regex WITH the g flag resumes at lastIndex.  Both
behaviours are modelled faithfully, because the difference is load-bearing:
several while loops of the source call exec on non-global regexes.

While loops of the source are given an explicit fuel parameter; a result
of none means the loop did not finish within the given fuel, and a theorem
of the form (for all fuel, f fuel input = none) states that the source
diverges on that input.  Runtime exceptions (TypeError) are modelled with
Except.  Numbers that the source only copies and compares (confidence
values) are modelled as rationals.
-/

namespace JsStr

/-- Lowercasing as used by toLowerCase() and by case-insensitive regex
matching, restricted to ASCII plus the Polish letters that occur in the
source patterns and inputs. -/
def charLower (c : Char) : Char :=
  if 'A' ≤ c ∧ c ≤ 'Z' then Char.ofNat (c.toNat + 32)
  else if c = 'Ł' then 'ł'
  else if c = 'Ę' then 'ę'
  else if c = 'Ą' then 'ą'
  else if c = 'Ś' then 'ś'
  else if c = 'Ó' then 'ó'
  else if c = 'Ż' then 'ż'
  else if c = 'Ź' then 'ź'
  else if c = 'Ć' then 'ć'
  else if c = 'Ń' then 'ń'
  else c

/-- toLowerCase() on a whole string. -/
def lowerL (s : List Char) : List Char := s.map charLower

/-- JavaScript String.prototype.substring(i, j) for i ≤ j: the characters
from index i (inclusive) to j (exclusive), indices clipped to the string. -/
def jsSubstring (s : List Char) (i j : Nat) : List Char := (s.take j).drop i

/-- Does hay contain needle as a contiguous substring (String.includes)? -/
def includesSub (hay needle : List Char) : Bool :=
  (List.range (hay.length + 1)).any (fun i => needle.isPrefixOf (hay.drop i))

/-- JavaScript \s for the characters used in this development. -/
def isSpaceJs (c : Char) : Bool :=
  c = ' ' ∨ c = '\n' ∨ c = '\t' ∨ c = '\r'

/-- String.prototype.trim(). -/
def trimJs (s : List Char) : List Char :=
  ((s.dropWhile isSpaceJs).reverse.dropWhile isSpaceJs).reverse

/-- String.prototype.split("\n"). -/
def splitNl (s : List Char) : List (List Char) :=
  s.splitOn '\n'

/-- parseInt on a non-empty string of decimal digits. -/
def parseDigits (s : List Char) : Nat :=
  s.foldl (fun acc c => acc * 10 + (c.toNat - '0'.toNat)) 0

/-- JavaScript (option || default) for strings: null, undefined and the
empty string are falsy. -/
def jsOr (o : Option (List Char)) (d : List Char) : List Char :=
  match o with
  | some s => if s.isEmpty then d else s
  | none => d

/-- JavaScript (option || null) for strings: the value when truthy. -/
def truthyOpt (o : Option (List Char)) : Option (List Char) :=
  match o with
  | some s => if s.isEmpty then none else some s
  | none => none

/-- First truthy value of a chain a || b || ... || null. -/
def firstTruthy (l : List (Option (List Char))) : Option (List Char) :=
  match l with
  | [] => none
  | o :: rest =>
    match truthyOpt o with
    | some s => some s
    | none => firstTruthy rest

/-- JavaScript (numberOption || default): 0, null, undefined are falsy. -/
def jsOrNat (o : Option Nat) (d : Nat) : Nat :=
  match o with
  | some n => if n = 0 then d else n
  | none => d

/-- JavaScript (numberOption || null). -/
def truthyNat (o : Option Nat) : Option Nat :=
  match o with
  | some n => if n = 0 then none else some n
  | none => none

/-- JavaScript (rationalOption || default), used for confidence values. -/
def jsOrQ (o : Option ℚ) (d : ℚ) : ℚ :=
  match o with
  | some q => if q = 0 then d else q
  | none => d

/-- The rational 0.9, built with the raw constructor so that kernel
evaluation (decide) works; q09_eq relates it to the usual notation. -/
def q09 : ℚ := ⟨9, 10, by norm_num, by norm_num⟩

/-- The rational 0.7 (see q09). -/
def q07 : ℚ := ⟨7, 10, by norm_num, by norm_num⟩

/-- The rational 0.8 in lowest terms (see q09). -/
def q08 : ℚ := ⟨4, 5, by norm_num, by norm_num⟩

/-- The rational 0.5 (see q09). -/
def qHalf : ℚ := ⟨1, 2, by norm_num, by norm_num⟩

theorem q09_eq : q09 = 9/10 := by
  rw [q09, Rat.mk'_eq_divInt, Rat.divInt_eq_div]; norm_num

theorem q07_eq : q07 = 7/10 := by
  rw [q07, Rat.mk'_eq_divInt, Rat.divInt_eq_div]; norm_num

theorem q08_eq : q08 = 8/10 := by
  rw [q08, Rat.mk'_eq_divInt, Rat.divInt_eq_div]; norm_num

theorem qHalf_eq : qHalf = 1/2 := by
  rw [qHalf, Rat.mk'_eq_divInt, Rat.divInt_eq_div]; norm_num

/-- String.prototype.replace(pat, rep) with a string pattern: replaces the
first occurrence only. -/
def replaceFirst (s pat rep : List Char) : List Char :=
  match s with
  | [] => if pat.isEmpty then rep else []
  | c :: rest =>
    if pat.isPrefixOf s then rep ++ s.drop pat.length
    else c :: replaceFirst rest pat rep

end JsStr

namespace JsRegex

open JsStr

/-- The character classes that occur in the source regexes. -/
inductive CClass where
  | digit                 -- \d
  | space                 -- \s
  | hostChar              -- [a-zA-Z0-9.-]
  | alpha                 -- [a-zA-Z]
  | userChar              -- [a-zA-Z0-9._-]
  | userAtChar            -- [a-zA-Z0-9._@-]
  | emailLocalChar        -- [a-zA-Z0-9._%+-]
  | notSpaceCommaSemi     -- [^\s,;]
  | notSpaceCommaSemiPar  -- [^\s,;)]
  | notColon              -- [^:]
  | notSpace              -- [^\s]
  | notSlashSpace         -- [^/\s]
  deriving DecidableEq, Repr

def isAsciiAlpha (c : Char) : Bool :=
  ('a' ≤ c ∧ c ≤ 'z') ∨ ('A' ≤ c ∧ c ≤ 'Z')

def isDigitCh (c : Char) : Bool := '0' ≤ c ∧ c ≤ '9'

/-- Membership in a character class. -/
def CClass.mem : CClass → Char → Bool
  | .digit, c => isDigitCh c
  | .space, c => isSpaceJs c
  | .hostChar, c => isAsciiAlpha c ∨ isDigitCh c ∨ c = '.' ∨ c = '-'
  | .alpha, c => isAsciiAlpha c
  | .userChar, c => isAsciiAlpha c ∨ isDigitCh c ∨ c = '.' ∨ c = '_' ∨ c = '-'
  | .userAtChar, c =>
      isAsciiAlpha c ∨ isDigitCh c ∨ c = '.' ∨ c = '_' ∨ c = '@' ∨ c = '-'
  | .emailLocalChar, c =>
      isAsciiAlpha c ∨ isDigitCh c ∨ c = '.' ∨ c = '_' ∨ c = '%' ∨ c = '+' ∨ c = '-'
  | .notSpaceCommaSemi, c => ¬ (isSpaceJs c ∨ c = ',' ∨ c = ';')
  | .notSpaceCommaSemiPar, c => ¬ (isSpaceJs c ∨ c = ',' ∨ c = ';' ∨ c = ')')
  | .notColon, c => c ≠ ':'
  | .notSpace, c => ¬ isSpaceJs c
  | .notSlashSpace, c => ¬ (c = '/' ∨ isSpaceJs c)

/-- Regular expressions as used by the source: literals (optionally
case-insensitive), character-class quantifiers with greedy or lazy
semantics, sequencing, ordered alternation and capture groups. -/
inductive RE where
  | eps
  | lit (ci : Bool) (s : List Char)
  | cls (c : CClass) (lo : Nat) (hi : Option Nat) (lzy : Bool)
  | seq (a b : RE)
  | alt (a b : RE)
  | grp (a : RE)
  deriving Repr

/-- Length of the maximal run of class characters at the head. -/
def runLen (cl : CClass) : List Char → Nat
  | [] => 0
  | c :: rest => if cl.mem c then runLen cl rest + 1 else 0

/-- The repetition counts a quantifier tries, in backtracking order:
greedy tries the longest first, lazy the shortest first. -/
def countRange (lo n : Nat) (lzy : Bool) : List Nat :=
  if n < lo then []
  else if lzy then List.range' lo (n - lo + 1)
  else (List.range' lo (n - lo + 1)).reverse

/-- Case-insensitive (when ci) literal prefix test. -/
def litAt (ci : Bool) (pat s : List Char) : Bool :=
  if ci then (lowerL pat).isPrefixOf (lowerL s) else pat.isPrefixOf s

/-- All ways a regex can match a prefix of s, in JavaScript backtracking
order; each outcome is the remaining suffix with the captures produced. -/
def mRE : RE → List Char → List (List Char × List (List Char))
  | .eps, s => [(s, [])]
  | .lit ci t, s => if litAt ci t s then [(s.drop t.length, [])] else []
  | .cls c lo hi lzy, s =>
    let n := match hi with
      | none => runLen c s
      | some h => min (runLen c s) h
    (countRange lo n lzy).map (fun k => (s.drop k, []))
  | .seq a b, s =>
    (mRE a s).flatMap (fun p =>
      (mRE b p.1).map (fun q => (q.1, p.2 ++ q.2)))
  | .alt a b, s => mRE a s ++ mRE b s
  | .grp a, s =>
    (mRE a s).map (fun p => (p.1, s.take (s.length - p.1.length) :: p.2))

/-- A regex match: its index in the subject, the matched text (match[0])
and the list of captured groups. -/
structure MatchInfo where
  index : Nat
  matched : List Char
  caps : List (List Char)
  deriving DecidableEq, Repr

/-- First capture group of a match (match[1]); the patterns translated
here always capture the group the source reads. -/
def cap1 (m : MatchInfo) : List Char := m.caps.headD []

/-- Second capture group of a match (match[2]). -/
def cap2 (m : MatchInfo) : List Char := (m.caps.drop 1).headD []

/-- Leftmost match: try the regex at index i, i+1, ... like a JavaScript
regex engine does. -/
def findAux (r : RE) : Nat → List Char → Option MatchInfo
  | i, s =>
    match mRE r s with
    | p :: _ => some ⟨i, s.take (s.length - p.1.length), p.2⟩
    | [] =>
      match s with
      | [] => none
      | _ :: rest => findAux r (i + 1) rest

/-- exec on a regex without the g flag: lastIndex is ignored and the
search always starts at the beginning of the subject. -/
def execNG (r : RE) (s : List Char) : Option MatchInfo := findAux r 0 s

/-- All matches of a global regex, as the successive exec calls of a
while loop produce them.  Fuel is the remaining subject length plus one;
every pattern used globally in the source consumes at least one
character, so the loop advances by at least one index per step. -/
def matchAllAux (r : RE) : Nat → Nat → List Char → List MatchInfo
  | 0, _, _ => []
  | f + 1, base, s =>
    match findAux r 0 s with
    | none => []
    | some m =>
      let adv := m.index + max 1 m.matched.length
      ⟨base + m.index, m.matched, m.caps⟩ :: matchAllAux r f (base + adv) (s.drop adv)

/-- All matches of a regex with the g flag over a subject. -/
def matchAllG (r : RE) (s : List Char) : List MatchInfo :=
  matchAllAux r (s.length + 1) 0 s

/-- One while loop of the shape while ((m = pattern.exec(text)) !== null)
on a NON-global pattern, as credentialExtractor.js writes it: the body
pushes the match and assigns pattern.lastIndex, but exec ignores
lastIndex without the g flag, so the loop exits only when the pattern has
no match at all.  none means the fuel ran out, i.e. the loop was still
running. -/
def ngCollect (r : RE) (s : List Char) : Nat → List MatchInfo → Option (List MatchInfo)
  | 0, _ => none
  | f + 1, acc =>
    match execNG r s with
    | none => some acc
    | some m => ngCollect r s f (acc ++ [m])

/-- for (const pattern of patterns) { m = pattern.exec(s); if (m) break; }:
the first pattern that matches wins, later patterns are not tried. -/
def firstExec (ps : List RE) (s : List Char) : Option MatchInfo :=
  match ps with
  | [] => none
  | r :: rest =>
    match execNG r s with
    | some m => some m
    | none => firstExec rest s

/-- First capture of the first pattern of the list that matches. -/
def firstCap (ps : List RE) (s : List Char) : Option (List Char) :=
  (firstExec ps s).map cap1

/-- RegExp.prototype.test for a fully anchored pattern ^r$: some
backtracking outcome consumes the whole subject. -/
def fullMatch (r : RE) (s : List Char) : Bool :=
  (mRE r s).any (fun p => p.1.isEmpty)

/-- Sequencing of a pattern list. -/
def rseq (l : List RE) : RE := l.foldr .seq .eps

/-- Case-insensitive literal (patterns carrying the i flag). -/
def rlit (s : String) : RE := .lit true s.data

/-- Case-sensitive literal (patterns without the i flag). -/
def rlits (s : String) : RE := .lit false s.data

/-- A regex that never matches, the unit of n-ary alternation. -/
def rfail : RE := .cls .digit 1 (some 0) false

/-- Ordered n-ary alternation (?:a|b|...). -/
def altL (l : List RE) : RE := l.foldr .alt rfail

/-- Greedy option (?:r)?. -/
def ropt (r : RE) : RE := .alt r .eps

/-- Greedy star c* over a character class. -/
def star0 (c : CClass) : RE := .cls c 0 none false

/-- Lazy star c*? over a character class. -/
def star0L (c : CClass) : RE := .cls c 0 none true

/-- Greedy plus c+ over a character class. -/
def plus1 (c : CClass) : RE := .cls c 1 none false

end JsRegex

/-!
Embedding of src/src/utils/credentialExtractor.js.

Every RE value below is the translation of one regex literal of the
source; the original regex is quoted in the comment above it.  Patterns
carrying the i flag use case-insensitive literals (rlit), the two
nameserver-entry patterns carry only the g flag and use case-sensitive
literals (rlits).
-/

namespace CredExtract

open JsStr JsRegex

/-- The capture ([a-zA-Z0-9.-]+\.[a-zA-Z]{2,}) used for hostnames. -/
def hostG : RE := .grp (rseq [plus1 .hostChar, rlit ".", .cls .alpha 2 none false])

/-- ftpServer pattern 1 (line 51):
(?:serwer(?:a)?\s*FTP|adres\s*FTP):\s*([a-zA-Z0-9.-]+\.[a-zA-Z]{2,}) with i. -/
def ftpServer1 : RE := rseq
  [ .alt (rseq [rlit "serwer", ropt (rlit "a"), star0 .space, rlit "FTP"])
         (rseq [rlit "adres", star0 .space, rlit "FTP"])
  , rlit ":", star0 .space, hostG ]

/-- ftpServer pattern 2 (line 52): FTP:\s*([a-zA-Z0-9.-]+\.[a-zA-Z]{2,}) with i. -/
def ftpServer2 : RE := rseq [rlit "FTP:", star0 .space, hostG]

/-- ftpServer pattern 3 (line 53):
(?:FTP|serwer\s+FTP)(?:[^:]*?)(?:jest|to)?(?::\s*|\s+)(host) with i. -/
def ftpServer3 : RE := rseq
  [ .alt (rlit "FTP") (rseq [rlit "serwer", plus1 .space, rlit "FTP"])
  , star0L .notColon
  , ropt (.alt (rlit "jest") (rlit "to"))
  , .alt (rseq [rlit ":", star0 .space]) (plus1 .space)
  , hostG ]

/-- ipRegex (line 87):
(?:adres\s*IP|IP):\s*(\d{1,3}\.\d{1,3}\.\d{1,3}\.\d{1,3}) with gi. -/
def ipRegex : RE :=
  let d13 : RE := .cls .digit 1 (some 3) false
  rseq
    [ .alt (rseq [rlit "adres", star0 .space, rlit "IP"]) (rlit "IP")
    , rlit ":", star0 .space
    , .grp (rseq [d13, rlit ".", d13, rlit ".", d13, rlit ".", d13]) ]

/-- ftpUsername pattern 1 (line 56):
(?:login|username|user|użytkownik(?:a)?|nazwa\s*użytkownika)(?:\s+FTP)?:\s*([a-zA-Z0-9._-]+) with i. -/
def ftpUser1 : RE := rseq
  [ altL [ rlit "login", rlit "username", rlit "user"
         , rseq [rlit "użytkownik", ropt (rlit "a")]
         , rseq [rlit "nazwa", star0 .space, rlit "użytkownika"] ]
  , ropt (rseq [plus1 .space, rlit "FTP"])
  , rlit ":", star0 .space, .grp (plus1 .userChar) ]

/-- ftpUsername pattern 2 (line 57):
(?:FTP|serwer\s+FTP)(?:[^:]*?)(?:login|username|user):\s*([a-zA-Z0-9._-]+) with i. -/
def ftpUser2 : RE := rseq
  [ .alt (rlit "FTP") (rseq [rlit "serwer", plus1 .space, rlit "FTP"])
  , star0L .notColon
  , altL [rlit "login", rlit "username", rlit "user"]
  , rlit ":", star0 .space, .grp (plus1 .userChar) ]

/-- ftpPassword pattern 1 (line 60):
(?:hasło|haslo|password|pass|pwd)(?:\s+FTP)?:\s*([^\s,;]+) with i. -/
def ftpPass1 : RE := rseq
  [ altL [rlit "hasło", rlit "haslo", rlit "password", rlit "pass", rlit "pwd"]
  , ropt (rseq [plus1 .space, rlit "FTP"])
  , rlit ":", star0 .space, .grp (plus1 .notSpaceCommaSemi) ]

/-- ftpPassword pattern 2 (line 61):
(?:FTP|serwer\s+FTP)(?:[^:]*?)(?:hasło|haslo|password|pass):\s*([^\s,;]+) with i. -/
def ftpPass2 : RE := rseq
  [ .alt (rlit "FTP") (rseq [rlit "serwer", plus1 .space, rlit "FTP"])
  , star0L .notColon
  , altL [rlit "hasło", rlit "haslo", rlit "password", rlit "pass"]
  , rlit ":", star0 .space, .grp (plus1 .notSpaceCommaSemi) ]

/-- ftpPort pattern (line 64): (?:port\s+FTP|FTP\s+port):\s*(\d+) with i. -/
def ftpPortP : RE := rseq
  [ .alt (rseq [rlit "port", plus1 .space, rlit "FTP"])
         (rseq [rlit "FTP", plus1 .space, rlit "port"])
  , rlit ":", star0 .space, .grp (plus1 .digit) ]

/-- Modelled from the spec: getNearbyText is called throughout
credentialExtractor.js but its definition lies in the part of the file
that is not in the repository snapshot.  Spec section 4.1: nearbyText
(text, offset, radius) returns the bounded window used for secondary
lookups, clipped at text bounds. -/
def getNearbyText (s : List Char) (index radius : Nat) : List Char :=
  jsSubstring s (index - radius) (min s.length (index + radius))

end CredExtract

namespace CredExtract

open JsStr JsRegex

/-- An entry of the ftpAccounts result list (lines 139-146). -/
structure FtpAccount where
  server : List Char
  username : List Char
  password : Option (List Char)
  port : Nat
  type : List Char
  confidence : ℚ
  deriving DecidableEq, Repr

/-- extractFtpCredentials (lines 45-151).  The three ftpServer patterns
are scanned by while loops over non-global exec (ngCollect); the IP
pattern is global; each collected server is then associated with the
first-matching username, password and port patterns in its 300-character
context window.  A candidate is pushed only when a username resolved;
port defaults to 21 and confidence is 0.9 with a password, 0.7 without. -/
def extractFtpCredentialsF (fuel : Nat) (text : List Char) : Option (List FtpAccount) := do
  let h1 ← ngCollect ftpServer1 text fuel []
  let h2 ← ngCollect ftpServer2 text fuel []
  let h3 ← ngCollect ftpServer3 text fuel []
  let ipHits := (matchAllG ipRegex text).filter (fun m =>
    let nearby := lowerL (getNearbyText text m.index 50)
    includesSub nearby "ftp".data ∨
      (includesSub nearby "serwer".data ∧ ¬ includesSub nearby "mail".data))
  let servers := (h1 ++ h2 ++ h3).map (fun m => (cap1 m, m.index))
      ++ ipHits.map (fun m => (cap1 m, m.index))
  pure (servers.filterMap (fun sv =>
    let nearby := getNearbyText text sv.2 300
    let username := firstCap [ftpUser1, ftpUser2] nearby
    let password := firstCap [ftpPass1, ftpPass2] nearby
    let port := firstCap [ftpPortP] nearby
    username.map (fun u =>
      { server := sv.1
        username := u
        password := password
        port := jsOrNat (port.map parseDigits) 21
        type := "ftp".data
        confidence := if password.isSome then q09 else q07 })))

/-- cpanel pattern 1 (line 164):
(?:cPanel|panel|panel\s+administracyjny)(?:[^:]*?)(?:jest|to)?(?::\s*|\s+)(https?:\/\/[^\s]+) with i. -/
def cpanel1 : RE := rseq
  [ altL [rlit "cPanel", rlit "panel", rseq [rlit "panel", plus1 .space, rlit "administracyjny"]]
  , star0L .notColon
  , ropt (.alt (rlit "jest") (rlit "to"))
  , .alt (rseq [rlit ":", star0 .space]) (plus1 .space)
  , .grp (rseq [rlit "http", ropt (rlit "s"), rlit "://", plus1 .notSpace]) ]

/-- cpanel pattern 2 (line 165):
(https?:\/\/[^/\s]+(?:\/cpsess\d+\/|\/cpanel|\/panel|\/whm|:[0-9]+\/)[^\s]*) with i. -/
def cpanel2 : RE := .grp (rseq
  [ rlit "http", ropt (rlit "s"), rlit "://", plus1 .notSlashSpace
  , altL [ rseq [rlit "/cpsess", plus1 .digit, rlit "/"]
         , rlit "/cpanel", rlit "/panel", rlit "/whm"
         , rseq [rlit ":", plus1 .digit, rlit "/"] ]
  , star0 .notSpace ])

/-- panelUrl pattern (line 168): (?:adres\s+panelu|panel):\s*(https?:\/\/[^\s,;]+) with i. -/
def panelUrl1 : RE := rseq
  [ .alt (rseq [rlit "adres", plus1 .space, rlit "panelu"]) (rlit "panel")
  , rlit ":", star0 .space
  , .grp (rseq [rlit "http", ropt (rlit "s"), rlit "://", plus1 .notSpaceCommaSemi]) ]

/-- serverAddress pattern 1 (line 171): (?:adres\s+serwera|serwer|server):\s*(host) with i. -/
def serverAddr1 : RE := rseq
  [ altL [rseq [rlit "adres", plus1 .space, rlit "serwera"], rlit "serwer", rlit "server"]
  , rlit ":", star0 .space, hostG ]

/-- serverAddress pattern 2 (line 172): (?:host(?:ing)?):\s*(host) with i. -/
def serverAddr2 : RE := rseq
  [ rlit "host", ropt (rlit "ing"), rlit ":", star0 .space, hostG ]

/-- username pattern (line 175):
(?:login|username|user|użytkownik(?:a)?|nazwa\s*użytkownika):\s*([a-zA-Z0-9._-]+) with i. -/
def usernameP : RE := rseq
  [ altL [ rlit "login", rlit "username", rlit "user"
         , rseq [rlit "użytkownik", ropt (rlit "a")]
         , rseq [rlit "nazwa", star0 .space, rlit "użytkownika"] ]
  , rlit ":", star0 .space, .grp (plus1 .userChar) ]

/-- password pattern (line 178): (?:hasło|haslo|password|pass|pwd):\s*([^\s,;]+) with i. -/
def passwordP : RE := rseq
  [ altL [rlit "hasło", rlit "haslo", rlit "password", rlit "pass", rlit "pwd"]
  , rlit ":", star0 .space, .grp (plus1 .notSpaceCommaSemi) ]

/-- An entry of the serverCredentials result list: panel entries carry a
url (lines 267-273), server entries a server (lines 301-309). -/
structure ServerCred where
  url : Option (List Char)
  server : Option (List Char)
  username : Option (List Char)
  password : Option (List Char)
  type : List Char
  confidence : ℚ
  deriving DecidableEq, Repr

/-- Panel type derived from a panelUrl match (lines 205-213). -/
def panelType (url : List Char) : List Char :=
  if includesSub url "cpanel".data ∨ includesSub url "cpsess".data ∨ includesSub url "whm".data
  then "cpanel".data
  else if includesSub url "plesk".data then "plesk".data
  else if includesSub url "directadmin".data then "directadmin".data
  else "panel".data

/-- extractServerCredentials (lines 158-313).  All five anchor patterns
are scanned by while loops over non-global exec.  Every panel URL yields
a candidate (confidence 0.9 when both username and password resolve, else
0.7); a server address yields one only when a username resolves. -/
def extractServerCredentialsF (fuel : Nat) (text : List Char) : Option (List ServerCred) := do
  let c1 ← ngCollect cpanel1 text fuel []
  let c2 ← ngCollect cpanel2 text fuel []
  let p1 ← ngCollect panelUrl1 text fuel []
  let s1 ← ngCollect serverAddr1 text fuel []
  let s2 ← ngCollect serverAddr2 text fuel []
  let panelUrls := (c1 ++ c2).map (fun m => (cap1 m, "cpanel".data, m.index))
      ++ p1.map (fun m => (cap1 m, panelType (cap1 m), m.index))
  let servers := (s1 ++ s2).map (fun m => (cap1 m, m.index))
  let fromPanels := panelUrls.map (fun p =>
    let nearby := getNearbyText text p.2.2 400
    let username := firstCap [usernameP] nearby
    let password := firstCap [passwordP] nearby
    { url := some p.1, server := none, username := username, password := password
      type := p.2.1
      confidence := if username.isSome ∧ password.isSome then q09 else q07
      : ServerCred })
  let fromServers := servers.filterMap (fun sv =>
    let nearby := getNearbyText text sv.2 400
    let username := firstCap [usernameP] nearby
    let password := firstCap [passwordP] nearby
    username.map (fun u =>
      { url := none, server := some sv.1, username := some u, password := password
        type := "server".data
        confidence := if password.isSome then q09 else q07 : ServerCred }))
  pure (fromPanels ++ fromServers)

end CredExtract

namespace CredExtract

open JsStr JsRegex

/-- emailAddress pattern (line 326):
([a-zA-Z0-9._%+-]+@[a-zA-Z0-9.-]+\.[a-zA-Z]{2,}) with g. -/
def emailAddrP : RE := .grp (rseq
  [ plus1 .emailLocalChar, rlits "@", plus1 .hostChar, rlits "."
  , .cls .alpha 2 none false ])

/-- emailConfig pattern (line 329):
(?:dane|konfiguracja)\s+(?:do\s+)?(?:poczty|klient(?:a|ów)\s+pocztow) with i. -/
def emailConfigP : RE := rseq
  [ .alt (rlit "dane") (rlit "konfiguracja")
  , plus1 .space
  , ropt (rseq [rlit "do", plus1 .space])
  , .alt (rlit "poczty")
         (rseq [rlit "klient", .alt (rlit "a") (rlit "ów"), plus1 .space, rlit "pocztow"]) ]

/-- mailServer pattern 1 (line 332):
(?:serwer(?:a)?\s+(?:poczty|pocztow[ya])|mail\s+server)
(?:\s+(?:wychodząc(?:ej|a)|przychodzac(?:ej|a))?)?(?:\s*(?:to|jest|:))?\s*(host) with i. -/
def mailServer1 : RE := rseq
  [ .alt (rseq [ rlit "serwer", ropt (rlit "a"), plus1 .space
               , .alt (rlit "poczty") (rseq [rlit "pocztow", .alt (rlit "y") (rlit "a")]) ])
         (rseq [rlit "mail", plus1 .space, rlit "server"])
  , ropt (rseq [ plus1 .space
               , ropt (.alt (rseq [rlit "wychodząc", .alt (rlit "ej") (rlit "a")])
                            (rseq [rlit "przychodzac", .alt (rlit "ej") (rlit "a")])) ])
  , ropt (rseq [star0 .space, altL [rlit "to", rlit "jest", rlit ":"]])
  , star0 .space, hostG ]

/-- mailServer pattern 2 (line 333):
(?:IMAP|POP3|SMTP)(?:[^:]*?)(?:jest|to)?(?::\s*|\s+)(host) with i. -/
def mailServer2 : RE := rseq
  [ altL [rlit "IMAP", rlit "POP3", rlit "SMTP"]
  , star0L .notColon
  , ropt (.alt (rlit "jest") (rlit "to"))
  , .alt (rseq [rlit ":", star0 .space]) (plus1 .space)
  , hostG ]

/-- An entry of the emailAccounts result list (lines 413-423).  The push
at line 413 is unreachable (see extractEmailAccountsE), so no value of
this type is ever produced, but the shape is kept for fidelity. -/
structure EmailAccount where
  email : List Char
  password : Option (List Char)
  server : Option (List Char)
  imapPort : Option Nat
  smtpPort : Option Nat
  popPort : Option Nat
  encryption : Option (List Char)
  type : List Char
  confidence : ℚ
  deriving DecidableEq, Repr

/-- The body of the email while loop (lines 386-425) over the successive
matches of the global emailAddress pattern.  An email whose preceding 20
characters contain login, user or nazwa użytkownika is skipped by the
continue at line 395.  Any match that survives that check reaches line
406, patterns.password.exec(nearbyText): patterns.password is an ARRAY
of regexes, an array has no exec method, so the call throws a TypeError
before anything can be pushed.  (The nearbyText and isMigrationEmail
computations of lines 388 and 399-402 are pure and unused on every path
that completes, and are therefore not repeated here.) -/
def loginKeywordPre (text : List Char) (index : Nat) : Bool :=
  let preText := lowerL (jsSubstring text (index - 20) index)
  includesSub preText "login".data ∨ includesSub preText "user".data ∨
    includesSub preText "nazwa użytkownika".data

/-- The loop over the email matches; see the comment on loginKeywordPre
for why any surviving match throws. -/
def emailScan (text : List Char) :
    List MatchInfo → List EmailAccount → Except (List Char) (List EmailAccount)
  | [], acc => .ok acc
  | m :: rest, acc =>
    if loginKeywordPre text m.index
    then emailScan text rest acc
    else .error "TypeError: patterns.password.exec is not a function".data

/-- extractEmailAccounts (lines 320-428).  If the email-configuration
pattern matches and a mail server is found in the following 800-character
section, lines 368-370 call exec on the ARRAYS patterns.imapPort,
patterns.smtpPort, patterns.popPort and throw a TypeError.  Otherwise
mailServerConfig stays null and the email loop runs (emailScan). -/
def extractEmailAccountsE (text : List Char) : Except (List Char) (List EmailAccount) :=
  match execNG emailConfigP text with
  | some cm =>
    match firstExec [mailServer1, mailServer2]
        (jsSubstring text cm.index (min text.length (cm.index + 800))) with
    | some _ => .error "TypeError: patterns.imapPort.exec is not a function".data
    | none => emailScan text (matchAllG emailAddrP text) []
  | none => emailScan text (matchAllG emailAddrP text) []

/-- domain pattern 1 (line 609):
(?:domen(?:y|ę)|domain)(?:\s+|\s*:\s*)?(host) with gi. -/
def domain1 : RE := rseq
  [ .alt (rseq [rlit "domen", .alt (rlit "y") (rlit "ę")]) (rlit "domain")
  , ropt (.alt (plus1 .space) (rseq [star0 .space, rlit ":", star0 .space]))
  , hostG ]

/-- domain pattern 2 (line 610):
(?:przekierowanie|przeniesienie)\s+(?:domeny|domen(?:y)?)(?:\s+|\s*:\s*)?(host) with gi. -/
def domain2 : RE := rseq
  [ .alt (rlit "przekierowanie") (rlit "przeniesienie")
  , plus1 .space
  , .alt (rlit "domeny") (rseq [rlit "domen", ropt (rlit "y")])
  , ropt (.alt (plus1 .space) (rseq [star0 .space, rlit ":", star0 .space]))
  , hostG ]

/-- nameserverSection pattern 1 (line 613):
(?:serwer(?:y|ów)?\s*(?:DNS|nazw)|nameserver(?:s)?)(?:[^:]*?): with i. -/
def nsSection1 : RE := rseq
  [ .alt (rseq [ rlit "serwer", ropt (.alt (rlit "y") (rlit "ów")), star0 .space
               , .alt (rlit "DNS") (rlit "nazw") ])
         (rseq [rlit "nameserver", ropt (rlit "s")])
  , star0L .notColon, rlit ":" ]

/-- nameserverSection pattern 2 (line 614):
(?:adresy?\s+serwerów\s+DNS|DNS(?:\s+servers)?)\s+(?:potrzebne|to)(?:[^:]*?): with i. -/
def nsSection2 : RE := rseq
  [ .alt (rseq [rlit "adres", ropt (rlit "y"), plus1 .space, rlit "serwerów", plus1 .space, rlit "DNS"])
         (rseq [rlit "DNS", ropt (rseq [plus1 .space, rlit "servers"])])
  , plus1 .space
  , .alt (rlit "potrzebne") (rlit "to")
  , star0L .notColon, rlit ":" ]

/-- nameserver pattern 1 (line 617): (?:ns\d+|NS\d+)\.(host) with g (case-sensitive). -/
def nsEntry1 : RE := rseq
  [ .alt (rseq [rlits "ns", plus1 .digit]) (rseq [rlits "NS", plus1 .digit])
  , rlits ".", hostG ]

/-- nameserver pattern 2 (line 618): (?:ns\d+|NS\d+)(?:\s*[=:]\s*|\s+)(host) with g. -/
def nsEntry2 : RE := rseq
  [ .alt (rseq [rlits "ns", plus1 .digit]) (rseq [rlits "NS", plus1 .digit])
  , .alt (rseq [star0 .space, .alt (rlits "=") (rlits ":"), star0 .space]) (plus1 .space)
  , hostG ]

/-- The anchored hostname test of line 649: ^[a-zA-Z0-9.-]+\.[a-zA-Z]{2,}$. -/
def hostFullP : RE := rseq [plus1 .hostChar, rlits ".", .cls .alpha 2 none false]

/-- The website regex of line 684: (https?:\/\/([a-zA-Z0-9.-]+\.[a-zA-Z]{2,})) with gi;
group 2 is the hostname the source reads. -/
def websiteHostP : RE := .grp (rseq
  [ rlit "http", ropt (rlit "s"), rlit "://"
  , .grp (rseq [plus1 .hostChar, rlit ".", .cls .alpha 2 none false]) ])

/-- An entry of the domains result list (lines 672-678 and 695-701). -/
structure DomainRec where
  domain : List Char
  nameservers : List (List Char)
  type : List Char
  index : Nat
  confidence : ℚ
  deriving DecidableEq, Repr

/-- Nameserver collection of extractDomainInfo (lines 622-659): the first
matching nameserverSection pattern opens a 400-character block; both
nameserver entry patterns are scanned globally over it (line 637 keeps
the full match when it contains a dot), then every line of the block
after the first that is a bare hostname is added; duplicates are
skipped. -/
def findNameservers (text : List Char) : List (List Char) :=
  match firstExec [nsSection1, nsSection2] text with
  | none => []
  | some nsm =>
    let nsBlock := jsSubstring text nsm.index (min text.length (nsm.index + 400))
    let addNs := fun (acc : List (List Char)) (m : MatchInfo) =>
      let fullNs := if includesSub m.matched ".".data then m.matched
                    else "ns.".data ++ cap1 m
      if fullNs ∈ acc then acc else acc ++ [fullNs]
    let step1 := (matchAllG nsEntry1 nsBlock).foldl addNs []
    let step2 := (matchAllG nsEntry2 nsBlock).foldl addNs step1
    ((splitNl nsBlock).drop 1).foldl (fun acc line =>
      let ln := trimJs line
      if fullMatch hostFullP ln then
        (if ln ∈ acc then acc else acc ++ [ln])
      else acc) step2

/-- The push of lines 667-679 and 690-702: skip when a record with this
domain literal exists, else append a record carrying the document-level
nameserver list (the conditional spread of line 674 and the empty list
are both exactly that list). -/
def addDomain (ns : List (List Char)) (conf : ℚ) (acc : List DomainRec)
    (d : List Char) (idx : Nat) : List DomainRec :=
  if acc.any (fun r => r.domain == d) then acc
  else acc ++ [⟨d, ns, "domain".data, idx, conf⟩]

/-- The explicit-domain loops of lines 662-680: both global domain
patterns in order, sharing one result list, confidence 0.9 (q09). -/
def explicitDomains (text : List Char) (ns : List (List Char)) : List DomainRec :=
  (matchAllG domain2 text).foldl
    (fun acc m => addDomain ns q09 acc (cap1 m) m.index)
    ((matchAllG domain1 text).foldl
      (fun acc m => addDomain ns q09 acc (cap1 m) m.index) [])

/-- The synthesis loop of lines 683-703: hostnames (capture 2) of website
URLs, confidence 0.8 (q08), appended to the explicit list. -/
def synthDomains (text : List Char) (ns : List (List Char))
    (init : List DomainRec) : List DomainRec :=
  (matchAllG websiteHostP text).foldl
    (fun acc m => addDomain ns q08 acc (cap2 m) m.index) init

/-- extractDomainInfo (lines 603-706).  Explicitly mentioned domains are
collected by both global domain patterns with duplicate suppression, each
carrying the document-level nameserver list; when nameservers exist but
no explicit domain was found, domains are synthesized from the hostnames
of website URLs. -/
def extractDomainInfo (text : List Char) : List DomainRec :=
  if 0 < (findNameservers text).length ∧
      (explicitDomains text (findNameservers text)).length = 0 then
    synthDomains text (findNameservers text)
      (explicitDomains text (findNameservers text))
  else explicitDomains text (findNameservers text)

/-- dnsSection pattern 1 (line 719): (?:rekordy|wpisy|konfiguracja)\s+DNS with i. -/
def dnsSec1 : RE := rseq
  [ altL [rlit "rekordy", rlit "wpisy", rlit "konfiguracja"], plus1 .space, rlit "DNS" ]

/-- dnsSection pattern 2 (line 720):
(?:ustawienia|konfiguracja)\s+(?:DNS|domen(?:y)?) with i. -/
def dnsSec2 : RE := rseq
  [ .alt (rlit "ustawienia") (rlit "konfiguracja")
  , plus1 .space
  , .alt (rlit "DNS") (rseq [rlit "domen", ropt (rlit "y")]) ]

/-- Shape of a DNS record, mirroring the per-record patterns of lines
722-737 (record type, host, value); the visible code never constructs
one. -/
structure DnsRecord where
  recordType : List Char
  host : List Char
  value : List Char
  deriving DecidableEq, Repr

/-- extractDnsRecords (lines 713-750): dnsRecords starts empty and the
first matching dnsSection pattern sets dnsSectionStart (lines 741-749).
Modelled from the spec: the rest of the function body is not in the
repository snapshot; spec section 9 records that the DNS-record extractor
locates a section boundary but never consumes matched records into its
returned list, so the returned list is empty. -/
def extractDnsRecords (text : List Char) : List DnsRecord :=
  let _dnsSectionStart : Int :=
    match firstExec [dnsSec1, dnsSec2] text with
    | some m => (m.index : Int)
    | none => -1
  []

end CredExtract

namespace CredExtract

open JsStr JsRegex

/-- website context pattern (line 441, non-global):
(?:stron(?:y|ę)|www|http|przeniesienia)(?:[^:]*?)(?:https?:\/\/[a-zA-Z0-9.-]+\.[a-zA-Z]{2,}[^\s,;)]*) with i. -/
def websiteCtxP : RE := rseq
  [ altL [ rseq [rlit "stron", .alt (rlit "y") (rlit "ę")]
         , rlit "www", rlit "http", rlit "przeniesienia" ]
  , star0L .notColon
  , rlit "http", ropt (rlit "s"), rlit "://", plus1 .hostChar, rlit "."
  , .cls .alpha 2 none false, star0 .notSpaceCommaSemiPar ]

/-- The inner URL pattern of line 459, applied to the matched text:
(https?:\/\/[a-zA-Z0-9.-]+\.[a-zA-Z]{2,}[^\s,;)]*) with i. -/
def urlInnerP : RE := .grp (rseq
  [ rlit "http", ropt (rlit "s"), rlit "://", plus1 .hostChar, rlit "."
  , .cls .alpha 2 none false, star0 .notSpaceCommaSemiPar ])

/-- website bare-URL pattern (line 442): same as urlInnerP but global. -/
def urlBareP : RE := urlInnerP

/-- loginUrl pattern (line 445):
(?:(?:strona|adres)\s+(?:logowania|administracyjn[ya])|admin(?:\s+page)?)(?:\s*(?:to|jest|:))?\s*(https?:\/\/[^\s,;]+) with i. -/
def loginUrlGenP : RE := rseq
  [ .alt (rseq [ .alt (rlit "strona") (rlit "adres"), plus1 .space
               , .alt (rlit "logowania") (rseq [rlit "administracyjn", .alt (rlit "y") (rlit "a")]) ])
         (rseq [rlit "admin", ropt (rseq [plus1 .space, rlit "page"])])
  , ropt (rseq [star0 .space, altL [rlit "to", rlit "jest", rlit ":"]])
  , star0 .space
  , .grp (rseq [rlit "http", ropt (rlit "s"), rlit "://", plus1 .notSpaceCommaSemi]) ]

/-- The per-website username regex of line 531:
(?:login|username|user|użytkownika?|nazwa\s*użytkownika):\s*([a-zA-Z0-9._@-]+) with i. -/
def usernameWP : RE := rseq
  [ altL [ rlit "login", rlit "username", rlit "user"
         , rseq [rlit "użytkownik", ropt (rlit "a")]
         , rseq [rlit "nazwa", star0 .space, rlit "użytkownika"] ]
  , rlit ":", star0 .space, .grp (plus1 .userAtChar) ]

/-- The per-website password regex of line 532, identical to passwordP. -/
def passwordWP : RE := passwordP

/-- The dynamic login-URL regex of line 513, built from a website domain
with its dots escaped:
(https?://[^\s]+domain[^\s]*(?:admin|login|panel|cpanel|wp-admin)[^\s]*) with i. -/
def mkLoginRE (domain : List Char) : RE := .grp (rseq
  [ rlit "http", ropt (rlit "s"), rlit "://", plus1 .notSpace
  , .lit true domain
  , star0 .notSpace
  , altL [rlit "admin", rlit "login", rlit "panel", rlit "cpanel", rlit "wp-admin"]
  , star0 .notSpace ])

/-- Modelled from the spec: extractDomainFromUrl is called at line 510
but its definition lies in the part of credentialExtractor.js that is not
in the repository snapshot.  Spec section 4.2: the hostname is derived
from a website URL, and a malformed URL yields no derived field rather
than a failure. -/
def extractDomainFromUrl (url : List Char) : Option (List Char) :=
  let low := lowerL url
  let rest :=
    if ("https://".data).isPrefixOf low then some (url.drop 8)
    else if ("http://".data).isPrefixOf low then some (url.drop 7)
    else none
  match rest with
  | none => none
  | some r =>
    let host := r.takeWhile (fun c => ¬ (c = '/' ∨ c = ':' ∨ c = '?' ∨ c = '#'))
    if host.isEmpty then none else some host

/-- detectCmsType (lines 559-596). -/
def detectCmsType (url contextText : List Char) : Option (List Char) :=
  if url.isEmpty then none else
  let lowerUrl := lowerL url
  let lowerContext := lowerL contextText
  if includesSub lowerUrl "/wp-".data ∨ includesSub lowerUrl "wp-admin".data ∨
      includesSub lowerUrl "wp-content".data then some "WordPress".data
  else if includesSub lowerUrl "/administrator".data ∨ includesSub lowerUrl "joomla".data then
    some "Joomla".data
  else if includesSub lowerUrl "/drupal".data ∨ includesSub lowerUrl "/sites/all/".data then
    some "Drupal".data
  else if includesSub lowerUrl "magento".data ∨ includesSub lowerUrl "/admin_".data then
    some "Magento".data
  else if includesSub lowerUrl "prestashop".data ∨ includesSub lowerUrl "/adminps/".data then
    some "PrestaShop".data
  else if includesSub lowerContext "wordpress".data ∨ includesSub lowerContext " wp ".data then
    some "WordPress".data
  else if includesSub lowerContext "joomla".data then some "Joomla".data
  else if includesSub lowerContext "drupal".data then some "Drupal".data
  else if includesSub lowerContext "magento".data then some "Magento".data
  else if includesSub lowerContext "prestashop".data then some "PrestaShop".data
  else if includesSub lowerContext "woocommerce".data then some "WooCommerce".data
  else if includesSub lowerContext "shopify".data then some "Shopify".data
  else none

/-- An entry of the websites result list (lines 465-470, 499-504, with
the fields assigned by the enrichment pass of lines 509-548). -/
structure Website where
  url : List Char
  type : List Char
  index : Nat
  confidence : ℚ
  loginUrl : Option (List Char)
  username : Option (List Char)
  password : Option (List Char)
  cmsType : Option (List Char)
  deriving DecidableEq, Repr

/-- The while loop of lines 456-475: non-global exec on the context
pattern, so the loop exits only when the pattern has no match; each
iteration re-extracts the URL from the matched text and pushes it if
unseen.  none means the fuel ran out (the loop was still running). -/
def ctxLoop (text : List Char) :
    Nat → List (List Char) × List Website → Option (List (List Char) × List Website)
  | 0, _ => none
  | f + 1, st =>
    match execNG websiteCtxP text with
    | none => some st
    | some m =>
      match execNG urlInnerP m.matched with
      | none => ctxLoop text f st
      | some um =>
        let url := cap1 um
        if url ∈ st.1 then ctxLoop text f st
        else ctxLoop text f
          (st.1 ++ [url], st.2 ++ [⟨url, "website".data, m.index, q09, none, none, none, none⟩])

/-- The enrichment forEach of lines 509-548: when a domain can be derived
from the URL, the login URL, nearby username/password and CMS type are
attached; otherwise the website entry is left untouched. -/
def enrichWebsite (text : List Char) (w : Website) : Website :=
  match extractDomainFromUrl w.url with
  | none => w
  | some domain =>
    let loginUrl :=
      match execNG (mkLoginRE domain) text with
      | some lm => some (cap1 lm)
      | none => firstCap [loginUrlGenP] (getNearbyText text w.index 400)
    let nearby := getNearbyText text w.index 400
    { w with
        loginUrl := loginUrl
        username := (execNG usernameWP nearby).map cap1
        password := (execNG passwordWP nearby).map cap1
        cmsType := detectCmsType w.url text }

/-- extractWebsites (lines 435-551). -/
def extractWebsitesF (fuel : Nat) (text : List Char) : Option (List Website) := do
  let st ← ctxLoop text fuel ([], [])
  let withBare := ((matchAllG urlBareP text).foldl (fun st m =>
    let url := cap1 m
    if url ∈ st.1 then st else
      let nearby := lowerL (getNearbyText text m.index 100)
      let conf : ℚ :=
        if includesSub nearby "stron".data ∨ includesSub nearby "www".data ∨
            includesSub nearby "przenies".data ∨ includesSub nearby "migrac".data
        then q09 else q07
      (st.1 ++ [url], st.2 ++ [⟨url, "website".data, m.index, conf, none, none, none, none⟩]))
    st).2
  pure (withBare.map (enrichWebsite text))

/-- Shape of a generic credential.  Modelled from the spec:
extractGenericCredentials is called at line 36 but its definition is not
in the repository snapshot; spec sections 2 and 4.2 give only that the
generic extractor is total and returns a candidate list. -/
structure GenericCred where
  username : List Char
  password : List Char
  system : List Char
  deriving DecidableEq, Repr

/-- Modelled from the spec: extractGenericCredentials is total; the spec
specifies no more than that (worst case an empty result list), so the
model returns the empty list. -/
def extractGenericCredentials (_text : List Char) : List GenericCred := []

/-- Shape of a database credential.  Modelled from the spec:
extractDatabaseCredentials is called at line 35 but its definition is not
in the repository snapshot and the spec does not describe a database
extractor beyond totality. -/
structure DbCred where
  name : List Char
  deriving DecidableEq, Repr

/-- Modelled from the spec: extractDatabaseCredentials is total; nothing
more is specified, so the model returns the empty list. -/
def extractDatabaseCredentials (_text : List Char) : List DbCred := []

/-- The record extractAllCredentials returns (lines 16-25 and 28-37). -/
structure AllCreds where
  ftpAccounts : List FtpAccount
  serverCredentials : List ServerCred
  emailAccounts : List EmailAccount
  websites : List Website
  domains : List DomainRec
  dnsRecords : List DnsRecord
  databases : List DbCred
  genericCredentials : List GenericCred
  deriving Repr

/-- The empty result record of lines 16-25. -/
def emptyAll : AllCreds := ⟨[], [], [], [], [], [], [], []⟩

/-- extractAllCredentials (lines 14-38).  Blank input returns the empty
record (the typeof guard is enforced by the Lean type and not repeated);
otherwise the extractors run in the evaluation order of the object
literal.  none models divergence of one of the while loops; an error
models the TypeError thrown by the email extractor. -/
def extractAllCredentialsF (fuel : Nat) (text : List Char) :
    Option (Except (List Char) AllCreds) :=
  if (trimJs text).length = 0 then some (.ok emptyAll)
  else
    match extractFtpCredentialsF fuel text with
    | none => none
    | some ftp =>
      match extractServerCredentialsF fuel text with
      | none => none
      | some srv =>
        match extractEmailAccountsE text with
        | .error e => some (.error e)
        | .ok em =>
          match extractWebsitesF fuel text with
          | none => none
          | some ws =>
            some (.ok
              { ftpAccounts := ftp
                serverCredentials := srv
                emailAccounts := em
                websites := ws
                domains := extractDomainInfo text
                dnsRecords := extractDnsRecords text
                databases := extractDatabaseCredentials text
                genericCredentials := extractGenericCredentials text })

end CredExtract

/-!
Embedding of src/src/utils/jsonFormatter.js.

A raw credential is one JavaScript object with optional fields; absent
fields (undefined/null) are modelled as none.  JavaScript truthiness is
applied through the jsOr/truthyOpt/jsOrNat/jsOrQ helpers: the empty
string, 0 and absent values are falsy; arrays are truthy even when
empty.  Template literals render an absent field as the text undefined
(the source can also produce null there; no statement below depends on
that distinction).  Confidence numbers are rationals, copied and
compared but never computed with.
-/

namespace JsonFmt

open JsStr

/-- imapSettings/smtpSettings/popSettings sub-object of a raw credential
(as built by the aiServices simulateAIAnalysis pipeline). -/
structure MailSettings where
  server : Option (List Char) := none
  port : Option Nat := none
  deriving DecidableEq, Repr

/-- A raw credential object: the union of the fields jsonFormatter.js
reads. -/
structure Credential where
  _type : Option (List Char) := none
  username : Option (List Char) := none
  password : Option (List Char) := none
  server : Option (List Char) := none
  url : Option (List Char) := none
  domain : Option (List Char) := none
  email : Option (List Char) := none
  system : Option (List Char) := none
  port : Option Nat := none
  confidence : Option ℚ := none
  nameservers : Option (List (List Char)) := none
  currentNameservers : Option (List (List Char)) := none
  registrar : Option (List Char) := none
  encryption : Option (List Char) := none
  loginUrl : Option (List Char) := none
  imapPort : Option Nat := none
  smtpPort : Option Nat := none
  popPort : Option Nat := none
  imapSettings : Option MailSettings := none
  smtpSettings : Option MailSettings := none
  popSettings : Option MailSettings := none
  dateExtracted : Option (List Char) := none
  clientId : Option (List Char) := none
  clientName : Option (List Char) := none
  ticketId : Option (List Char) := none
  deriving DecidableEq, Repr

/-- Formatted FTP account (formatFTPAccount, lines 62-73). -/
structure FtpFormatted where
  type : List Char
  server : Option (List Char)
  username : Option (List Char)
  password : Option (List Char)
  port : Nat
  encryption : List Char
  dateExtracted : List Char
  confidence : ℚ
  deriving DecidableEq, Repr

/-- loginDetails sub-object of a formatted website (lines 85-89). -/
structure LoginDetails where
  username : Option (List Char)
  password : Option (List Char)
  loginUrl : Option (List Char)
  deriving DecidableEq, Repr

/-- Formatted website credential (formatWebsite, lines 80-94). -/
structure WebsiteFormatted where
  type : List Char
  url : Option (List Char)
  hostname : Option (List Char)
  loginDetails : LoginDetails
  cms : Option (List Char)
  dateExtracted : List Char
  confidence : ℚ
  deriving DecidableEq, Repr

/-- delegation sub-object of a formatted domain (lines 107-110). -/
structure Delegation where
  required : Bool
  currentNameservers : Option (List (List Char))
  deriving DecidableEq, Repr

/-- Formatted domain (formatDomain, lines 101-114). -/
structure DomainFormatted where
  type : List Char
  domain : Option (List Char)
  registrar : Option (List Char)
  nameservers : List (List Char)
  delegation : Delegation
  dateExtracted : List Char
  confidence : ℚ
  deriving DecidableEq, Repr

/-- One imap/pop3/smtp endpoint of a formatted email account
(lines 139-158). -/
structure MailEndpoint where
  hostname : Option (List Char)
  port : Nat
  encryption : List Char
  authentication : List Char
  deriving DecidableEq, Repr

/-- serverConfiguration sub-object of a formatted email account
(lines 136-160). -/
structure ServerConfiguration where
  server : Option (List Char)
  imap : MailEndpoint
  pop3 : Option MailEndpoint
  smtp : MailEndpoint
  deriving DecidableEq, Repr

/-- Formatted email account (formatEmailAccount, lines 121-164). -/
structure EmailFormatted where
  type : List Char
  email : Option (List Char)
  password : Option (List Char)
  serverConfiguration : ServerConfiguration
  dateExtracted : List Char
  confidence : ℚ
  deriving DecidableEq, Repr

/-- Formatted generic credential (formatGenericCredential, lines 171-180). -/
structure GenericFormatted where
  type : List Char
  username : Option (List Char)
  password : Option (List Char)
  system : List Char
  dateExtracted : List Char
  confidence : ℚ
  deriving DecidableEq, Repr

/-- The closed set of formatted record shapes. -/
inductive FormattedRecord where
  | ftp (r : FtpFormatted)
  | website (r : WebsiteFormatted)
  | domain (r : DomainFormatted)
  | email (r : EmailFormatted)
  | generic (r : GenericFormatted)
  deriving DecidableEq, Repr

/-- The URL strings the platform URL constructor accepts, as this
embedding recognizes them: absolute http(s) URLs with a non-empty host —
the shape every URL this pipeline's candidates carry has (the extractor
patterns only ever match http(s)://host...).  The builtin also accepts
other schemes; a credential carrying one would be rejected here but not
by the builtin, so every theorem below either conditions on success or
is evaluated at a URL (such as the bare text x) that the builtin itself
rejects. -/
def parseUrlHostname (url : List Char) : Option (List Char) :=
  let low := lowerL url
  let rest :=
    if ("https://".data).isPrefixOf low then some (url.drop 8)
    else if ("http://".data).isPrefixOf low then some (url.drop 7)
    else none
  match rest with
  | none => none
  | some r =>
    let host := r.takeWhile (fun c => ¬ (c = '/' ∨ c = ':' ∨ c = '?' ∨ c = '#'))
    if host.isEmpty then none else some (lowerL host)

/-- The TypeError message new URL(malformed) produces. -/
def urlTypeError : List Char := "TypeError: Failed to construct URL: Invalid URL".data

/-- new URL(url).hostname (jsonFormatter.js line 84): the hostname of a
well-formed URL, and a thrown TypeError — which formatWebsite and all
its callers propagate uncaught — on a malformed one. -/
def newUrlHostname (url : List Char) : Except (List Char) (List Char) :=
  match parseUrlHostname url with
  | some h => .ok h
  | none => .error urlTypeError

/-- formatFTPAccount (lines 62-73).  now is the value of
new Date().toISOString() at call time. -/
def formatFTPAccount (now : List Char) (c : Credential) : FtpFormatted :=
  { type := "ftp".data
    server := firstTruthy
      [ c.server
      , c.system.map (fun s => replaceFirst (replaceFirst s "FTP (".data []) ")".data []) ]
    username := truthyOpt c.username
    password := truthyOpt c.password
    port := jsOrNat c.port 21
    encryption := jsOr c.encryption "FTP".data
    dateExtracted := jsOr c.dateExtracted now
    confidence := jsOrQ c.confidence 1 }

/-- detectCMS of jsonFormatter.js (lines 187-207). -/
def detectCMS (urlOrSystem : List Char) : Option (List Char) :=
  let lc := lowerL urlOrSystem
  if includesSub lc "wordpress".data ∨ includesSub lc "/wp-".data ∨
      includesSub lc "/wp-admin".data then some "WordPress".data
  else if includesSub lc "joomla".data then some "Joomla".data
  else if includesSub lc "drupal".data then some "Drupal".data
  else if includesSub lc "magento".data then some "Magento".data
  else if includesSub lc "prestashop".data then some "PrestaShop".data
  else if includesSub lc "woocommerce".data then some "WooCommerce".data
  else if includesSub lc "shopify".data then some "Shopify".data
  else none

/-- The record formatWebsite builds once the hostname ternary of line 84
has been evaluated. -/
def formatWebsiteCore (now : List Char) (c : Credential)
    (hostname : Option (List Char)) : WebsiteFormatted :=
  { type := "website".data
    url := truthyOpt c.url
    hostname := hostname
    loginDetails :=
      { username := truthyOpt c.username
        password := truthyOpt c.password
        loginUrl := truthyOpt c.loginUrl }
    cms := detectCMS ((firstTruthy [c.url, c.system]).getD [])
    dateExtracted := jsOr c.dateExtracted now
    confidence := jsOrQ c.confidence 1 }

/-- formatWebsite (lines 80-94): a falsy url gives hostname null; a
truthy url is passed to new URL (line 84), whose TypeError on a
malformed url escapes the function — there is no try/catch here or in
any caller. -/
def formatWebsite (now : List Char) (c : Credential) :
    Except (List Char) WebsiteFormatted :=
  match truthyOpt c.url with
  | none => .ok (formatWebsiteCore now c none)
  | some u =>
    match newUrlHostname u with
    | .error e => .error e
    | .ok h => .ok (formatWebsiteCore now c (some h))

/-- formatDomain (lines 101-114). -/
def formatDomain (now : List Char) (c : Credential) : DomainFormatted :=
  { type := "domain".data
    domain := firstTruthy [c.domain, c.username]
    registrar := truthyOpt c.registrar
    nameservers := c.nameservers.getD []
    delegation :=
      { required := match c.nameservers with
          | some l => decide (0 < l.length)
          | none => false
        currentNameservers := c.currentNameservers }
    dateExtracted := jsOr c.dateExtracted now
    confidence := jsOrQ c.confidence 1 }

/-- formatEmailAccount (lines 121-164). -/
def formatEmailAccount (now : List Char) (c : Credential) : EmailFormatted :=
  let server := firstTruthy
    [c.server, c.imapSettings.bind (·.server), c.smtpSettings.bind (·.server)]
  let smtpPort : Option Nat :=
    match c.smtpSettings with
    | some st => st.port
    | none => truthyNat c.smtpPort
  let imapPort : Option Nat :=
    match c.imapSettings with
    | some st => st.port
    | none => truthyNat c.imapPort
  let popPort : Option Nat :=
    match c.popSettings with
    | some st => st.port
    | none => truthyNat c.popPort
  { type := "email".data
    email := firstTruthy [c.email, c.username]
    password := truthyOpt c.password
    serverConfiguration :=
      { server := server
        imap :=
          { hostname := server
            port := jsOrNat imapPort 993
            encryption := "SSL/TLS".data
            authentication := "Normal Password".data }
        pop3 := (truthyNat popPort).map (fun p =>
          { hostname := server
            port := p
            encryption := "SSL/TLS".data
            authentication := "Normal Password".data })
        smtp :=
          { hostname := server
            port := jsOrNat smtpPort 465
            encryption := "SSL/TLS".data
            authentication := "Normal Password".data } }
    dateExtracted := jsOr c.dateExtracted now
    confidence := jsOrQ c.confidence 1 }

/-- formatGenericCredential (lines 171-180). -/
def formatGenericCredential (now : List Char) (c : Credential) : GenericFormatted :=
  { type := "generic".data
    username := truthyOpt c.username
    password := truthyOpt c.password
    system := jsOr c.system "Nieokreślony".data
    dateExtracted := jsOr c.dateExtracted now
    confidence := jsOrQ c.confidence 1 }

/-- credential.system?.toLowerCase().includes(needle). -/
def sysIncl (c : Credential) (needle : String) : Bool :=
  match c.system with
  | some s => includesSub (lowerL s) needle.data
  | none => false

/-- credential.username?.includes("@") (equivalently
credential.username && credential.username.includes("@")). -/
def userHasAt (c : Credential) : Bool :=
  match c.username with
  | some u => includesSub u "@".data
  | none => false

/-- The five classification outcomes of the dispatch chain. -/
inductive CKind where
  | ftp | website | domain | email | generic
  deriving DecidableEq, Repr

/-- The dispatch chain written identically at lines 41-51
(groupCredentialsByClient), 234-244 (categorizeMigrationData) and
303-313 (createJsonFile): conditions are tested in this order. -/
def credKind (c : Credential) : CKind :=
  if c._type == some "ftp".data || sysIncl c "ftp" then .ftp
  else if c._type == some "website".data || sysIncl c "web" then .website
  else if c._type == some "domain".data || sysIncl c "domain" then .domain
  else if c._type == some "email".data || userHasAt c || sysIncl c "email" then .email
  else .generic

/-- The formatter the dispatch chain applies for each outcome.  Only the
website arm can fail: formatWebsite's TypeError propagates out of every
function that formats a website credential. -/
def formatByKind (now : List Char) (c : Credential) :
    Except (List Char) FormattedRecord :=
  match credKind c with
  | .ftp => .ok (.ftp (formatFTPAccount now c))
  | .website => (formatWebsite now c).map .website
  | .domain => .ok (.domain (formatDomain now c))
  | .email => .ok (.email (formatEmailAccount now c))
  | .generic => .ok (.generic (formatGenericCredential now c))

end JsonFmt

namespace JsonFmt

open JsStr

/-- The five-bucket categorized structure (lines 225-231). -/
structure CatData where
  ftpAccounts : List FtpFormatted
  websites : List WebsiteFormatted
  domains : List DomainFormatted
  emailAccounts : List EmailFormatted
  otherCredentials : List GenericFormatted
  deriving DecidableEq, Repr

/-- The empty categorized structure (lines 216-222 and 225-231). -/
def emptyCat : CatData := ⟨[], [], [], [], []⟩

/-- One iteration of the forEach of lines 233-245: the credential is
formatted and pushed into the bucket its dispatch chain selects; on a
website credential the formatter's TypeError escapes the whole
categorization. -/
def catStepE (now : List Char) (acc : CatData) (c : Credential) :
    Except (List Char) CatData :=
  match credKind c with
  | .ftp => .ok { acc with ftpAccounts := acc.ftpAccounts ++ [formatFTPAccount now c] }
  | .website =>
    match formatWebsite now c with
    | .error e => .error e
    | .ok w => .ok { acc with websites := acc.websites ++ [w] }
  | .domain => .ok { acc with domains := acc.domains ++ [formatDomain now c] }
  | .email => .ok { acc with emailAccounts := acc.emailAccounts ++ [formatEmailAccount now c] }
  | .generic => .ok { acc with otherCredentials := acc.otherCredentials ++ [formatGenericCredential now c] }

/-- The forEach of lines 233-245 over the whole input: the first
formatter exception aborts it. -/
def catGo (now : List Char) : List Credential → CatData → Except (List Char) CatData
  | [], acc => .ok acc
  | c :: rest, acc =>
    match catStepE now acc c with
    | .error e => .error e
    | .ok acc2 => catGo now rest acc2

/-- categorizeMigrationData (lines 214-248); for the empty list the guard
of lines 215-223 returns the same empty bucket record the loop produces. -/
def categorizeMigrationData (now : List Char) (creds : List Credential) :
    Except (List Char) CatData :=
  catGo now creds emptyCat

/-- One ticket bucket (lines 32-37). -/
structure TicketGroup where
  credentials : List FormattedRecord
  dateCreated : List Char
  deriving DecidableEq, Repr

/-- One client bucket (lines 20-27).  JavaScript objects keep string keys
in insertion order, so the tickets object is an association list. -/
structure ClientGroup where
  clientName : List Char
  clientInfoId : Option (List Char)
  dateAdded : List Char
  tickets : List (List Char × TicketGroup)
  deriving DecidableEq, Repr

/-- The grouped export: clientId keys in insertion order. -/
abbrev Grouped : Type := List (List Char × ClientGroup)

/-- Object property lookup on an insertion-ordered association list. -/
def getA (l : List (List Char × TicketGroup)) (k : List Char) : Option TicketGroup :=
  (l.find? (fun p => p.1 == k)).map (·.2)

/-- Object property write: replaces the value in place when the key is
present, otherwise appends in insertion order. -/
def setA (l : List (List Char × TicketGroup)) (k : List Char) (v : TicketGroup) :
    List (List Char × TicketGroup) :=
  match l with
  | [] => [(k, v)]
  | (k₀, v₀) :: rest =>
    if k₀ == k then (k, v) :: rest else (k₀, v₀) :: setA rest k v

/-- Lookup on the client level. -/
def getC (g : Grouped) (k : List Char) : Option ClientGroup :=
  (List.find? (fun p => p.1 == k) g).map (·.2)

/-- Write on the client level. -/
def setC (g : Grouped) (k : List Char) (v : ClientGroup) : Grouped :=
  match g with
  | [] => [(k, v)]
  | (k₀, v₀) :: rest =>
    if k₀ == k then (k, v) :: rest else (k₀, v₀) :: setC rest k v

/-- new Date().toISOString().split("T")[0] given the full timestamp. -/
def jsDateOnly (now : List Char) : List Char := now.takeWhile (fun c => c ≠ 'T')

/-- credential.clientId || "unknown" (line 18). -/
def cidOf (c : Credential) : List Char := jsOr c.clientId "unknown".data

/-- credential.ticketId || "general" (line 30). -/
def tidOf (c : Credential) : List Char := jsOr c.ticketId "general".data

/-- credential.clientName || "Nieznany Klient" (line 21). -/
def nameOf (c : Credential) : List Char := jsOr c.clientName "Nieznany Klient".data

/-- One iteration of the forEach of lines 17-52, given the formatted
record r the push expression produced: the client bucket is created on
first sight of its clientId (defaulting to unknown) with the clientName
of THAT credential, the ticket bucket on first sight of its ticketId
(defaulting to general), and r is pushed at the end of the ticket's
list. -/
def insertCredF (now : List Char) (g : Grouped) (c : Credential)
    (r : FormattedRecord) : Grouped :=
  let cl := match getC g (cidOf c) with
    | some cl => cl
    | none =>
      { clientName := nameOf c
        clientInfoId := truthyOpt c.clientId
        dateAdded := jsDateOnly now
        tickets := [] }
  let tk := match getA cl.tickets (tidOf c) with
    | some tk => tk
    | none => { credentials := [], dateCreated := now }
  let tk := { tk with credentials := tk.credentials ++ [r] }
  setC g (cidOf c) { cl with tickets := setA cl.tickets (tidOf c) tk }

/-- The forEach of lines 17-52 over the whole input.  In the source each
iteration creates the buckets and then evaluates the formatter inside
the push; a website credential with a malformed truthy url makes that
formatter throw, the exception escapes groupCredentialsByClient (no
try/catch), and the partially built object is discarded unobserved — so
formatting first and inserting second is observationally the same loop. -/
def groupGo (now : List Char) : List Credential → Grouped → Except (List Char) Grouped
  | [], g => .ok g
  | c :: rest, g =>
    match formatByKind now c with
    | .error e => .error e
    | .ok r => groupGo now rest (insertCredF now g c r)

/-- groupCredentialsByClient (lines 10-55); the empty-input guard of
lines 11-13 returns the empty object the loop also produces. -/
def groupCredentialsByClient (now : List Char) (creds : List Credential) :
    Except (List Char) Grouped :=
  groupGo now creds []

/-- A flattened record: the formatted credential spread together with the
clientId key, the group's clientName and the ticketId key (lines 268-276). -/
structure FlatRecord where
  record : FormattedRecord
  clientId : List Char
  clientName : List Char
  ticketId : List Char
  deriving DecidableEq, Repr

/-- The inner double loop of flattenGroupedCredentials for one client. -/
def flattenClient (cid : List Char) (cl : ClientGroup) : List FlatRecord :=
  cl.tickets.flatMap (fun t =>
    t.2.credentials.map (fun r => ⟨r, cid, cl.clientName, t.1⟩))

/-- flattenGroupedCredentials (lines 255-281): Object.keys iterates in
insertion order. -/
def flattenGroupedCredentials (g : Grouped) : List FlatRecord :=
  g.flatMap (fun p => flattenClient p.1 p.2)

/-- Rendering of a field inside a template literal: an absent field
renders as undefined.  (The source can also hold null there, rendered
null; no statement below depends on the difference.) -/
def optForKey (o : Option (List Char)) : List Char :=
  match o with
  | some s => s
  | none => "undefined".data

/-- cred.email || cred.username inside the email key template: the
second operand is rendered as-is when the first is falsy. -/
def renderOr (a b : Option (List Char)) : List Char :=
  match truthyOpt a with
  | some s => s
  | none => optForKey b

/-- Truthiness of an optional string field. -/
def truthyB (o : Option (List Char)) : Bool := (truthyOpt o).isSome

/-- The identity key of mergeCredentials (lines 510-523).  The branch
conditions are tested in this order, and each tests the explicit _type
tag OR the presence of the branch's anchor field — so a candidate with a
truthy server lands in the ftp branch whatever its _type says. -/
def uniqueKey (c : Credential) : List Char :=
  if c._type == some "ftp".data || truthyB c.server then
    "ftp-".data ++ optForKey c.server ++ "-".data ++ optForKey c.username
  else if c._type == some "website".data || truthyB c.url then
    "website-".data ++ optForKey c.url ++ "-".data ++ optForKey c.username
  else if c._type == some "domain".data || truthyB c.domain then
    "domain-".data ++ optForKey c.domain
  else if c._type == some "email".data || userHasAt c then
    "email-".data ++ renderOr c.email c.username
  else
    "generic-".data ++ optForKey c.username ++ "-".data ++ optForKey c.system

/-- The forEach of lines 509-530 with its Set of seen keys: a credential
is appended exactly when its key is unseen. -/
def mergeGo : List Credential → List (List Char) → List Credential
  | [], _ => []
  | c :: rest, seen =>
    if uniqueKey c ∈ seen then mergeGo rest seen
    else c :: mergeGo rest (uniqueKey c :: seen)

/-- mergeCredentials (lines 501-533): flatten the argument arrays, then
keep the first credential per identity key in first-seen order. -/
def mergeCredentials (xss : List (List Credential)) : List Credential :=
  mergeGo xss.flatten []

/-- What createJsonFile serializes (lines 295-315); the Blob/object-URL
wrapping of lines 317-319 is presentation. -/
inductive JsonExport where
  | categorized (d : CatData)
  | grouped (g : Grouped)
  | flat (l : List FormattedRecord)

/-- The flat branch of createJsonFile (lines 302-314):
credentials.map(...) with the dispatch chain; the first formatter
exception escapes the map. -/
def mapFormat (now : List Char) : List Credential → Except (List Char) (List FormattedRecord)
  | [] => .ok []
  | c :: rest =>
    match formatByKind now c with
    | .error e => .error e
    | .ok r =>
      match mapFormat now rest with
      | .error e => .error e
      | .ok rs => .ok (r :: rs)

/-- createJsonFile (lines 290-320): exporting an empty credential list
throws the export error (lines 291-293); otherwise the selected shape is
produced, through which a website formatter's TypeError propagates. -/
def createJsonFile (now : List Char) (creds : List Credential)
    (grouped categorized : Bool) : Except (List Char) JsonExport :=
  if creds.isEmpty then .error "Brak danych uwierzytelniających do eksportu".data
  else if categorized then (categorizeMigrationData now creds).map .categorized
  else if grouped then (groupCredentialsByClient now creds).map .grouped
  else (mapFormat now creds).map .flat

/-- One CSV cell: the stringified value wrapped in quotes with inner
quotes doubled (line 490). -/
def csvCell (cell : List Char) : List Char :=
  '"' :: (cell.flatMap (fun c => if c = '"' then ['"', '"'] else [c])) ++ ['"']

/-- Joining with a separator character. -/
def joinSep (sep : Char) (cells : List (List Char)) : List Char :=
  match cells with
  | [] => []
  | x :: rest => rest.foldl (fun acc y => acc ++ [sep] ++ y) x

/-- Decimal rendering of a number cell. -/
def natChars (n : Nat) : List Char := (toString n).data

/-- Headers plus quoted rows joined by newlines (lines 488-491). -/
def csvContent (headers : List (List Char)) (rows : List (List (List Char))) : List Char :=
  joinSep '\n' (joinSep ',' headers :: rows.map (fun row => joinSep ',' (row.map csvCell)))

/-- createCsvForCredentialType for the ftp bucket (lines 434-443);
an empty bucket yields the empty string (lines 427-429). -/
def csvFtp (l : List FtpFormatted) : List Char :=
  if l.isEmpty then [] else
  csvContent
    ["Server".data, "Username".data, "Password".data, "Port".data, "Encryption".data]
    (l.map (fun r =>
      [ (r.server).getD [], (r.username).getD [], (r.password).getD []
      , if r.port = 0 then "21".data else natChars r.port
      , jsOr (some r.encryption) "FTP".data ]))

/-- createCsvForCredentialType for the website bucket (lines 445-454). -/
def csvWebsite (l : List WebsiteFormatted) : List Char :=
  if l.isEmpty then [] else
  csvContent
    ["URL".data, "Hostname".data, "Username".data, "Password".data, "CMS".data]
    (l.map (fun r =>
      [ (r.url).getD [], (r.hostname).getD []
      , (r.loginDetails.username).getD [], (r.loginDetails.password).getD []
      , (r.cms).getD [] ]))

/-- createCsvForCredentialType for the domain bucket (lines 456-462). -/
def csvDomain (l : List DomainFormatted) : List Char :=
  if l.isEmpty then [] else
  csvContent
    ["Domain".data, "Nameservers".data]
    (l.map (fun r =>
      [ (r.domain).getD []
      , match r.nameservers with
        | [] => []
        | n :: rest => rest.foldl (fun acc y => acc ++ ", ".data ++ y) n ]))

/-- createCsvForCredentialType for the email bucket (lines 464-474). -/
def csvEmail (l : List EmailFormatted) : List Char :=
  if l.isEmpty then [] else
  csvContent
    [ "Email".data, "Password".data, "Server".data
    , "IMAP Port".data, "SMTP Port".data, "POP3 Port".data ]
    (l.map (fun r =>
      [ (r.email).getD [], (r.password).getD []
      , (r.serverConfiguration.server).getD []
      , if r.serverConfiguration.imap.port = 0 then [] else natChars r.serverConfiguration.imap.port
      , if r.serverConfiguration.smtp.port = 0 then [] else natChars r.serverConfiguration.smtp.port
      , match r.serverConfiguration.pop3 with
        | some e => if e.port = 0 then [] else natChars e.port
        | none => [] ]))

/-- createCsvForCredentialType for the generic bucket (lines 476-485). -/
def csvGeneric (l : List GenericFormatted) : List Char :=
  if l.isEmpty then [] else
  csvContent
    ["Username".data, "Password".data, "System".data]
    (l.map (fun r => [(r.username).getD [], (r.password).getD [], jsOr (some r.system) []]))

/-- The object of five CSV strings exportCredentialsToCSV returns
(lines 411-417). -/
structure CsvOut where
  ftpCsv : List Char
  websitesCsv : List Char
  domainsCsv : List Char
  emailCsv : List Char
  genericCsv : List Char
  deriving DecidableEq, Repr

/-- exportCredentialsToCSV (lines 396-418): an empty credential list
throws the export error (lines 397-399); otherwise the credentials are
categorized — through which a website formatter's TypeError propagates —
and one CSV is built per bucket. -/
def exportCredentialsToCSV (now : List Char) (creds : List Credential) :
    Except (List Char) CsvOut :=
  if creds.isEmpty then .error "Brak danych do eksportu".data
  else
    match categorizeMigrationData now creds with
    | .error e => .error e
    | .ok cat =>
      .ok
        { ftpCsv := csvFtp cat.ftpAccounts
          websitesCsv := csvWebsite cat.websites
          domainsCsv := csvDomain cat.domains
          emailCsv := csvEmail cat.emailAccounts
          genericCsv := csvGeneric cat.otherCredentials }

end JsonFmt

/-!
Properties of the deduplicating merge.
-/

namespace JsonFmt

open JsStr

theorem mergeGo_sublist (l : List Credential) :
    ∀ seen, (mergeGo l seen).Sublist l := by
  induction l with
  | nil => intro seen; simp [mergeGo]
  | cons c rest ih =>
    intro seen
    by_cases h : uniqueKey c ∈ seen
    · simpa [mergeGo, h] using (ih seen).cons c
    · simpa [mergeGo, h] using (ih (uniqueKey c :: seen)).cons₂ c

theorem mergeGo_key_not_seen (l : List Credential) :
    ∀ seen c, c ∈ mergeGo l seen → uniqueKey c ∉ seen := by
  induction l with
  | nil => intro seen c hc; simp [mergeGo] at hc
  | cons a rest ih =>
    intro seen c hc
    by_cases h : uniqueKey a ∈ seen
    · simp [mergeGo, h] at hc
      exact ih seen c hc
    · simp [mergeGo, h] at hc
      rcases hc with rfl | hc
      · exact h
      · have := ih _ c hc
        intro hmem
        exact this (List.mem_cons_of_mem _ hmem)

theorem mergeGo_keys_nodup (l : List Credential) :
    ∀ seen, ((mergeGo l seen).map uniqueKey).Nodup := by
  induction l with
  | nil => intro seen; simp [mergeGo]
  | cons a rest ih =>
    intro seen
    by_cases h : uniqueKey a ∈ seen
    · simpa [mergeGo, h] using ih seen
    · simp only [mergeGo, h, if_neg, List.map_cons]
      refine List.nodup_cons.mpr ⟨?_, ih _⟩
      intro hmem
      obtain ⟨c, hc, hkey⟩ := List.mem_map.mp hmem
      exact (mergeGo_key_not_seen rest _ c hc) (hkey ▸ List.mem_cons_self _ _)

theorem mergeGo_complete (l : List Credential) :
    ∀ seen c, c ∈ l → uniqueKey c ∉ seen →
      ∃ d ∈ mergeGo l seen, uniqueKey d = uniqueKey c := by
  induction l with
  | nil => intro seen c hc; simp at hc
  | cons a rest ih =>
    intro seen c hc hseen
    by_cases h : uniqueKey a ∈ seen
    · rcases List.mem_cons.mp hc with rfl | hc
      · exact absurd h hseen
      · obtain ⟨d, hd, hk⟩ := ih seen c hc hseen
        exact ⟨d, by simp [mergeGo, h, hd], hk⟩
    · rcases List.mem_cons.mp hc with rfl | hc
      · exact ⟨c, by simp [mergeGo, h], rfl⟩
      · by_cases hk : uniqueKey c = uniqueKey a
        · exact ⟨a, by simp [mergeGo, h], hk.symm⟩
        · have hni : uniqueKey c ∉ uniqueKey a :: seen := by
            simp [hk, hseen]
          obtain ⟨d, hd, hkd⟩ := ih (uniqueKey a :: seen) c hc hni
          exact ⟨d, by simp [mergeGo, h]; right; exact hd, hkd⟩

theorem mergeGo_first_wins (l : List Credential) :
    ∀ seen c, c ∈ mergeGo l seen →
      l.find? (fun d => uniqueKey d == uniqueKey c) = some c := by
  induction l with
  | nil => intro seen c hc; simp [mergeGo] at hc
  | cons a rest ih =>
    intro seen c hc
    by_cases h : uniqueKey a ∈ seen
    · simp [mergeGo, h] at hc
      have hne : uniqueKey a ≠ uniqueKey c := by
        intro he
        exact (mergeGo_key_not_seen rest seen c hc) (he ▸ h)
      simp [List.find?_cons, hne]
      exact ih seen c hc
    · simp [mergeGo, h] at hc
      rcases hc with rfl | hc
      · simp [List.find?_cons]
      · have hni := mergeGo_key_not_seen rest _ c hc
        have hne : uniqueKey a ≠ uniqueKey c := by
          intro he
          exact hni (he ▸ List.mem_cons_self _ _)
        simp [List.find?_cons, hne]
        exact ih _ c hc

theorem mergeGo_of_nodup (l : List Credential) :
    ∀ seen, ((l.map uniqueKey).Nodup) → (∀ c ∈ l, uniqueKey c ∉ seen) →
      mergeGo l seen = l := by
  induction l with
  | nil => intro seen _ _; simp [mergeGo]
  | cons a rest ih =>
    intro seen hnd hseen
    have ha : uniqueKey a ∉ seen := hseen a (List.mem_cons_self _ _)
    simp only [List.map_cons, List.nodup_cons] at hnd
    have : mergeGo rest (uniqueKey a :: seen) = rest := by
      refine ih _ hnd.2 ?_
      intro c hc
      simp only [List.mem_cons]
      push_neg
      constructor
      · intro he
        exact hnd.1 (he ▸ List.mem_map_of_mem uniqueKey hc)
      · exact hseen c (List.mem_cons_of_mem _ hc)
    simp [mergeGo, ha, this]

end JsonFmt

namespace JsonFmt

open JsStr

/-- A fixed timestamp standing for new Date().toISOString() in the
concrete evaluations below (the formatters only copy it). -/
def now0 : List Char := "2024-05-05T10:00:00.000Z".data

/-- C9: merge is idempotent — merging an already-merged candidate list
returns it unchanged, so merge(merge(xs)) = merge(xs) and in particular
merge(extract(text)) = merge(merge(extract(text))). -/
theorem C9_merge_idempotent (xss : List (List Credential)) :
    mergeCredentials [mergeCredentials xss] = mergeCredentials xss := by
  unfold mergeCredentials
  rw [show ([mergeGo xss.flatten []] : List (List Credential)).flatten
        = mergeGo xss.flatten [] by simp]
  exact mergeGo_of_nodup _ _ (mergeGo_keys_nodup _ _) (by intro c hc; simp)

/-- The identity key exactly as claim C3 words it, keyed on the
candidate's kind tag: ftp→(server,username), website→(url,username),
domain→(domain), email→(email or username), generic→(username,system).
This definition follows the claim's words, to be compared against
uniqueKey, which follows the source. -/
def claimKeyC3 (c : Credential) : List Char :=
  if c._type == some "ftp".data then
    "ftp-".data ++ optForKey c.server ++ "-".data ++ optForKey c.username
  else if c._type == some "website".data then
    "website-".data ++ optForKey c.url ++ "-".data ++ optForKey c.username
  else if c._type == some "domain".data then
    "domain-".data ++ optForKey c.domain
  else if c._type == some "email".data then
    "email-".data ++ renderOr c.email c.username
  else
    "generic-".data ++ optForKey c.username ++ "-".data ++ optForKey c.system

/-- Two candidates of kind email (as the aggregation pipeline produces
them: an email candidate carries its mail server) that differ in their
email address, i.e. in the claimed identity key. -/
def c3email1 : Credential :=
  { _type := some "email".data, email := some "a@x.com".data
    username := some "u".data, server := some "mail.x.com".data
    confidence := some q09 }

/-- Like c3email1 with a different email address and confidence. -/
def c3email2 : Credential :=
  { c3email1 with email := some "b@x.com".data, confidence := some q07 }

/-- C3 counterexample: the two email candidates have DIFFERENT identity
keys under the claim's kind-based key table, yet merge drops the second,
because the code's branch test (_type === "ftp" || cred.server) sends
any candidate with a truthy server into the ftp key, (server, username),
which collides here. -/
theorem C3_counterexample :
    mergeCredentials [[c3email1, c3email2]] = [c3email1] ∧
    claimKeyC3 c3email1 ≠ claimKeyC3 c3email2 ∧
    c3email1 ≠ c3email2 := by
  refine ⟨by decide, by decide, by decide⟩

/-- Two FTP candidates identical in (server, username) with different
confidence. -/
def c3ftp1 : Credential :=
  { _type := some "ftp".data, server := some "ftp.x.com".data
    username := some "u".data, confidence := some q09 }

/-- Like c3ftp1 with a different confidence. -/
def c3ftp2 : Credential := { c3ftp1 with confidence := some q07 }

/-- C3 amended: merge flattens its argument lists and keeps the first
occurrence per identity key where the key is computed by the code's
branch order (uniqueKey): _type "ftp" or truthy server → ftp-(server,
username); else _type "website" or truthy url → website-(url,username);
else _type "domain" or truthy domain → domain-(domain); else _type
"email" or username containing @ → email-(email or username); else
generic-(username,system).  The output is a subsequence of the flattened
input (first-seen order preserved), its keys are pairwise distinct,
every input key is represented, each retained candidate is the FIRST
input candidate bearing its key, and the two FTP candidates differing
only in confidence collapse to the first. -/
theorem C3_merge_first_per_branch_key (xss : List (List Credential)) :
    (mergeCredentials xss).Sublist xss.flatten ∧
    ((mergeCredentials xss).map uniqueKey).Nodup ∧
    (∀ c ∈ xss.flatten, ∃ d ∈ mergeCredentials xss, uniqueKey d = uniqueKey c) ∧
    (∀ c ∈ mergeCredentials xss,
      xss.flatten.find? (fun d => uniqueKey d == uniqueKey c) = some c) ∧
    mergeCredentials [[c3ftp1], [c3ftp2]] = [c3ftp1] := by
  refine ⟨mergeGo_sublist _ _, mergeGo_keys_nodup _ _, ?_, ?_, by decide⟩
  · intro c hc
    exact mergeGo_complete _ _ c hc (by simp)
  · intro c hc
    exact mergeGo_first_wins _ _ c hc

/-- C3 witness: the first-wins clause applied at a concrete input. -/
theorem C3_merge_witness :
    ([[c3ftp1], [c3ftp2]] : List (List Credential)).flatten.find?
      (fun d => uniqueKey d == uniqueKey c3ftp1) = some c3ftp1 :=
  (C3_merge_first_per_branch_key [[c3ftp1], [c3ftp2]]).2.2.2.1 c3ftp1 (by decide)

theorem catStepE_len (now : List Char) (acc acc2 : CatData) (c : Credential)
    (h : catStepE now acc c = .ok acc2) :
    acc2.ftpAccounts.length + acc2.websites.length + acc2.domains.length +
      acc2.emailAccounts.length + acc2.otherCredentials.length =
    acc.ftpAccounts.length + acc.websites.length + acc.domains.length +
      acc.emailAccounts.length + acc.otherCredentials.length + 1 := by
  unfold catStepE at h
  split at h
  · simp only [Except.ok.injEq] at h
    subst h
    simp
    omega
  · split at h
    · simp at h
    · simp only [Except.ok.injEq] at h
      subst h
      simp
      omega
  · simp only [Except.ok.injEq] at h
    subst h
    simp
    omega
  · simp only [Except.ok.injEq] at h
    subst h
    simp
    omega
  · simp only [Except.ok.injEq] at h
    subst h
    simp
    omega

theorem catGo_len (now : List Char) (l : List Credential) :
    ∀ (acc cat : CatData), catGo now l acc = .ok cat →
      cat.ftpAccounts.length + cat.websites.length + cat.domains.length +
        cat.emailAccounts.length + cat.otherCredentials.length =
      acc.ftpAccounts.length + acc.websites.length + acc.domains.length +
        acc.emailAccounts.length + acc.otherCredentials.length + l.length := by
  induction l with
  | nil =>
    intro acc cat h
    obtain rfl : acc = cat := by
      simpa [catGo] using h
    simp
  | cons c rest ih =>
    intro acc cat h
    unfold catGo at h
    cases hs : catStepE now acc c with
    | error e => rw [hs] at h; simp at h
    | ok acc2 =>
      rw [hs] at h
      have h1 := catStepE_len now acc acc2 c hs
      have h2 := ih acc2 cat h
      simp only [List.length_cons]
      omega

/-- A website-classified credential with a truthy malformed url: the
platform URL constructor rejects the bare text x, in the source as in
this model. -/
def badUrlCred : Credential := { _type := some "website".data, url := some "x".data }

/-- C10 counterexample: categorizeMigrationData does NOT partition every
input array — on an array holding a website credential with a truthy
malformed url it propagates the TypeError thrown by new URL inside
formatWebsite and produces no buckets at all, so no bucket-length sum
exists for this input. -/
theorem C10_categorize_throws_counterexample :
    categorizeMigrationData now0 [badUrlCred] = .error urlTypeError ∧
    (categorizeMigrationData now0 [badUrlCred]).isOk = false := ⟨rfl, rfl⟩

/-- C10 amended: on every input array on which the categorization
completes — none of its website-classified credentials carries a truthy
url the URL constructor rejects — each credential is formatted into
exactly one of the five buckets, so the bucket lengths sum to the input
length. -/
theorem C10_categorize_partition_amended (now : List Char)
    (creds : List Credential) (cat : CatData)
    (h : categorizeMigrationData now creds = .ok cat) :
    cat.ftpAccounts.length + cat.websites.length + cat.domains.length +
      cat.emailAccounts.length + cat.otherCredentials.length = creds.length := by
  have hl := catGo_len now creds emptyCat cat h
  simpa [emptyCat] using hl

/-- A generic credential on which categorization completes. -/
def c10cred : Credential := { username := some "u".data }

/-- The categorization of [c10cred]. -/
def c10cat : CatData := ⟨[], [], [], [], [formatGenericCredential now0 c10cred]⟩

/-- C10 witness: the partition applied at a concrete one-element input. -/
theorem C10_partition_witness :
    c10cat.ftpAccounts.length + c10cat.websites.length + c10cat.domains.length +
      c10cat.emailAccounts.length + c10cat.otherCredentials.length = 1 :=
  C10_categorize_partition_amended now0 [c10cred] c10cat rfl

/-- C8 counterexample: a candidate CARRIES confidence 0 (a value in the
documented range [0,1]) and the formatter replaces it by 1.0, because
(credential.confidence || 1.0) treats 0 as falsy — so substitution does
not happen only when the candidate carries no confidence at all. -/
theorem C8_confidence_zero_counterexample :
    ({ confidence := some 0 } : Credential).confidence = some 0 ∧
    (formatGenericCredential now0 { confidence := some 0 }).confidence = 1 ∧
    (formatFTPAccount now0 { confidence := some 0 }).confidence = 1 ∧
    (1 : ℚ) ≠ 0 := by
  refine ⟨rfl, ?_, ?_, by norm_num⟩ <;>
    simp [formatGenericCredential, formatFTPAccount, jsOrQ]

/-- C8 amended: the formatters preserve a carried nonzero confidence
unchanged and substitute the default 1.0 exactly when the candidate
carries no confidence or carries the (falsy) value 0. -/
theorem C8_format_confidence_amended (now : List Char) (c : Credential) (q : ℚ) :
    (c.confidence = some q → q ≠ 0 →
      (formatFTPAccount now c).confidence = q ∧
      (formatEmailAccount now c).confidence = q ∧
      (formatGenericCredential now c).confidence = q) ∧
    ((c.confidence = none ∨ c.confidence = some 0) →
      (formatFTPAccount now c).confidence = 1 ∧
      (formatEmailAccount now c).confidence = 1 ∧
      (formatGenericCredential now c).confidence = 1) := by
  constructor
  · intro h hq
    refine ⟨?_, ?_, ?_⟩ <;>
      simp [formatFTPAccount, formatEmailAccount, formatGenericCredential, jsOrQ, h, hq]
  · rintro (h | h) <;>
      refine ⟨?_, ?_, ?_⟩ <;>
        simp [formatFTPAccount, formatEmailAccount, formatGenericCredential, jsOrQ, h]

/-- A candidate carrying confidence one half. -/
def c8half : Credential := { confidence := some qHalf }

/-- C8 witness: the preservation clause applied at confidence 1/2. -/
theorem C8_format_confidence_witness :
    (formatFTPAccount now0 c8half).confidence = qHalf ∧
    (formatEmailAccount now0 c8half).confidence = qHalf ∧
    (formatGenericCredential now0 c8half).confidence = qHalf :=
  (C8_format_confidence_amended now0 c8half qHalf).1 rfl
    (by rw [qHalf_eq]; norm_num)

theorem newUrlHostname_error (u e : List Char)
    (h : newUrlHostname u = .error e) : e = urlTypeError := by
  unfold newUrlHostname at h
  split at h
  · simp at h
  · simpa using h.symm

theorem formatWebsite_error (now : List Char) (c : Credential) (e : List Char)
    (h : formatWebsite now c = .error e) : e = urlTypeError := by
  unfold formatWebsite at h
  split at h
  · simp at h
  · split at h
    · rename_i e2 heq
      simp at h
      subst h
      exact newUrlHostname_error _ _ heq
    · simp at h

theorem formatByKind_error (now : List Char) (c : Credential) (e : List Char)
    (h : formatByKind now c = .error e) : e = urlTypeError := by
  unfold formatByKind at h
  split at h
  · simp at h
  · cases hw : formatWebsite now c with
    | error e2 =>
      rw [hw] at h
      simp [Except.map] at h
      subst h
      exact formatWebsite_error now c _ hw
    | ok w =>
      rw [hw] at h
      simp [Except.map] at h
  · simp at h
  · simp at h
  · simp at h

theorem catStepE_error (now : List Char) (acc : CatData) (c : Credential)
    (e : List Char) (h : catStepE now acc c = .error e) : e = urlTypeError := by
  unfold catStepE at h
  split at h
  · simp at h
  · split at h
    · rename_i e2 heq
      simp at h
      subst h
      exact formatWebsite_error now c _ heq
    · simp at h
  · simp at h
  · simp at h
  · simp at h

theorem catGo_error (now : List Char) (l : List Credential) :
    ∀ (acc : CatData) (e : List Char), catGo now l acc = .error e →
      e = urlTypeError := by
  induction l with
  | nil => intro acc e h; simp [catGo] at h
  | cons c rest ih =>
    intro acc e h
    unfold catGo at h
    cases hs : catStepE now acc c with
    | error e2 =>
      rw [hs] at h
      simp at h
      subst h
      exact catStepE_error now acc c _ hs
    | ok acc2 =>
      rw [hs] at h
      exact ih acc2 e h

theorem groupGo_error (now : List Char) (l : List Credential) :
    ∀ (g : Grouped) (e : List Char), groupGo now l g = .error e →
      e = urlTypeError := by
  induction l with
  | nil => intro g e h; simp [groupGo] at h
  | cons c rest ih =>
    intro g e h
    unfold groupGo at h
    cases hs : formatByKind now c with
    | error e2 =>
      rw [hs] at h
      simp at h
      subst h
      exact formatByKind_error now c _ hs
    | ok r =>
      rw [hs] at h
      exact ih (insertCredF now g c r) e h

theorem mapFormat_error (now : List Char) (l : List Credential) :
    ∀ (e : List Char), mapFormat now l = .error e → e = urlTypeError := by
  induction l with
  | nil => intro e h; simp [mapFormat] at h
  | cons c rest ih =>
    intro e h
    unfold mapFormat at h
    cases hs : formatByKind now c with
    | error e2 =>
      rw [hs] at h
      simp at h
      subst h
      exact formatByKind_error now c _ hs
    | ok r =>
      rw [hs] at h
      cases hm : mapFormat now rest with
      | error e2 =>
        rw [hm] at h
        simp at h
        subst h
        exact ih _ hm
      | ok rs =>
        rw [hm] at h
        simp at h

theorem mapEq_error {α β : Type} (f : α → β) (x : Except (List Char) α)
    (e : List Char) (h : Except.map f x = .error e) : x = .error e := by
  cases x with
  | error e2 =>
    simp [Except.map] at h
    simp [h]
  | ok v => simp [Except.map] at h

/-- A sample non-empty export payload. -/
def c7cred : Credential := { username := some "u".data }

/-- C7: both exports refuse to emit an empty artifact — an empty
credential list makes createJsonFile and exportCredentialsToCSV fail with
the blocking export error — while a non-empty list never fails for that
reason: the only exception a non-empty export can raise is the TypeError
the platform URL constructor throws inside formatWebsite, never the
empty-input export error. -/
theorem C7_export_refuses_empty (now : List Char) (creds : List Credential)
    (g c : Bool) :
    createJsonFile now [] g c = .error "Brak danych uwierzytelniających do eksportu".data ∧
    exportCredentialsToCSV now [] = .error "Brak danych do eksportu".data ∧
    (creds ≠ [] →
      createJsonFile now creds g c ≠ .error "Brak danych uwierzytelniających do eksportu".data ∧
      exportCredentialsToCSV now creds ≠ .error "Brak danych do eksportu".data ∧
      (∀ e, createJsonFile now creds g c = .error e → e = urlTypeError) ∧
      (∀ e, exportCredentialsToCSV now creds = .error e → e = urlTypeError)) := by
  refine ⟨rfl, rfl, ?_⟩
  intro hne
  have he : creds.isEmpty = false := by
    cases creds with
    | nil => exact absurd rfl hne
    | cons a l => rfl
  have hje : ∀ e, createJsonFile now creds g c = .error e → e = urlTypeError := by
    intro e h
    unfold createJsonFile at h
    rw [he] at h
    simp only [Bool.false_eq_true, if_false] at h
    split at h
    · have h2 := mapEq_error _ _ _ h
      exact catGo_error now creds emptyCat e h2
    · split at h
      · have h2 := mapEq_error _ _ _ h
        exact groupGo_error now creds [] e h2
      · have h2 := mapEq_error _ _ _ h
        exact mapFormat_error now creds e h2
  have hce : ∀ e, exportCredentialsToCSV now creds = .error e → e = urlTypeError := by
    intro e h
    unfold exportCredentialsToCSV at h
    rw [he] at h
    simp only [Bool.false_eq_true, if_false] at h
    cases hc : categorizeMigrationData now creds with
    | error e2 =>
      rw [hc] at h
      simp at h
      subst h
      exact catGo_error now creds emptyCat _ hc
    | ok cat =>
      rw [hc] at h
      simp at h
  refine ⟨?_, ?_, hje, hce⟩
  · intro hbad
    have hx := hje _ hbad
    exact absurd hx (by decide)
  · intro hbad
    have hx := hce _ hbad
    exact absurd hx (by decide)

/-- C7 witness: at a concrete one-element input neither export fails with
its blocking empty-input error. -/
theorem C7_export_witness :
    createJsonFile now0 [c7cred] true false ≠ .error "Brak danych uwierzytelniających do eksportu".data ∧
    exportCredentialsToCSV now0 [c7cred] ≠ .error "Brak danych do eksportu".data :=
  ⟨((C7_export_refuses_empty now0 [c7cred] true false).2.2 (by simp)).1,
   ((C7_export_refuses_empty now0 [c7cred] true false).2.2 (by simp)).2.1⟩

end JsonFmt

/-!
Claims about the extraction entry points.
-/

namespace CredExtract

open JsStr JsRegex

theorem ngCollect_diverges (r : RE) (s : List Char) (m : MatchInfo)
    (h : execNG r s = some m) : ∀ fuel acc, ngCollect r s fuel acc = none := by
  intro fuel
  induction fuel with
  | zero => intro acc; rfl
  | succ f ih =>
    intro acc
    simp only [ngCollect, h]
    exact ih _

/-- The failing input of claim C1. -/
def c1Input : List Char := "FTP: ftp.example.com".data

/-- The exact input of claim C2. -/
def c2Input : List Char := "serwer FTP: ftp.example.com\nlogin: alice\nhasło: s3cret".data

theorem ftp_diverges_c1 : ∀ fuel, extractFtpCredentialsF fuel c1Input = none := by
  have hns : execNG ftpServer1 c1Input = none := by decide
  have h2 : ∃ m, execNG ftpServer2 c1Input = some m := by
    rw [← Option.isSome_iff_exists]; decide
  obtain ⟨m, hm⟩ := h2
  intro fuel
  cases fuel with
  | zero => rfl
  | succ f =>
    simp [extractFtpCredentialsF, ngCollect, hns, hm,
      ngCollect_diverges ftpServer2 c1Input m hm]

/-- C1: extraction does NOT terminate for every input.  On the input
FTP: ftp.example.com — a string the spec requires to be handled — the
whole extractAllCredentials entry point never returns, however much fuel
its while loops are given: the ftpServer patterns carry no g flag, so
exec ignores the lastIndex the loop body assigns (its own comment says it
avoids the infinite loop) and returns the same first match forever. -/
theorem C1_extractAllCredentials_diverges :
    ∀ fuel, extractAllCredentialsF fuel c1Input = none := by
  intro fuel
  unfold extractAllCredentialsF
  rw [if_neg (by decide), ftp_diverges_c1 fuel]

/-- C2: on the claim's exact input the FTP extractor never returns —
ftpServer pattern 1 matches serwer FTP: ftp.example.com at index 0, and
the non-global while loop re-reads that same match forever — so no
candidate list (in particular not the claimed single 0.9-confidence
candidate) is ever produced. -/
theorem C2_ftp_extractor_diverges_on_claim_input :
    ∀ fuel, extractFtpCredentialsF fuel c2Input = none := by
  have h1 : ∃ m, execNG ftpServer1 c2Input = some m := by
    rw [← Option.isSome_iff_exists]; decide
  obtain ⟨m, hm⟩ := h1
  intro fuel
  cases fuel with
  | zero => rfl
  | succ f =>
    simp [extractFtpCredentialsF, ngCollect_diverges ftpServer1 c2Input m hm]

end CredExtract

namespace CredExtract

open JsStr JsRegex

theorem addDomain_mem (ns : List (List Char)) (conf : ℚ) (acc : List DomainRec)
    (d : List Char) (idx : Nat) :
    ∀ r ∈ addDomain ns conf acc d idx, r ∈ acc ∨ r.nameservers = ns := by
  intro r hr
  unfold addDomain at hr
  split at hr
  · exact Or.inl hr
  · rcases List.mem_append.mp hr with h | h
    · exact Or.inl h
    · simp at h
      subst h
      exact Or.inr rfl

theorem mem_foldl_addDomain (ns : List (List Char)) (conf : ℚ)
    (capf : JsRegex.MatchInfo → List Char) (ms : List JsRegex.MatchInfo) :
    ∀ (acc : List DomainRec) (r : DomainRec),
      r ∈ ms.foldl (fun a m => addDomain ns conf a (capf m) m.index) acc →
      r ∈ acc ∨ r.nameservers = ns := by
  induction ms with
  | nil => intro acc r hr; exact Or.inl hr
  | cons m rest ih =>
    intro acc r hr
    simp only [List.foldl_cons] at hr
    rcases ih _ r hr with h | h
    · exact addDomain_mem ns conf acc (capf m) m.index r h
    · exact Or.inr h

theorem explicitDomains_ns (text : List Char) (ns : List (List Char)) :
    ∀ r ∈ explicitDomains text ns, r.nameservers = ns := by
  intro r hr
  unfold explicitDomains at hr
  rcases mem_foldl_addDomain ns q09 cap1 _ _ r hr with h | h
  · rcases mem_foldl_addDomain ns q09 cap1 _ _ r h with h2 | h2
    · simp at h2
    · exact h2
  · exact h

/-- The concrete input of claim C4, naming the domain with the
nominative domena:. -/
def c4Input : List Char :=
  "Serwery DNS:\nns1.foo.com\nns2.foo.com\ndomena: foo.com".data

/-- The amended concrete input, naming the domain with the genitive
domeny: — a form the domain pattern (?:domen(?:y|ę)|domain) matches. -/
def c4AmendedInput : List Char :=
  "Serwery DNS:\nns1.foo.com\nns2.foo.com\ndomeny: foo.com".data

/-- A document with nameservers, no explicit domain and one website URL,
exercising the synthesis rule. -/
def c4SynthInput : List Char := "nameserver: ns1.foo.com\nhttp://bar.com".data

/-- C4 counterexample: on the claim's exact input the nameservers
ns1.foo.com and ns2.foo.com ARE found, but the extractor returns NO
domain record at all — the claimed record {domain: foo.com, nameservers:
[ns1.foo.com, ns2.foo.com]} in particular — because the domain pattern
(?:domen(?:y|ę)|domain) does not match the nominative form domena:, and
with no explicit domain and no website URL the synthesis path yields
nothing. -/
theorem C4_domena_counterexample :
    findNameservers c4Input = ["ns1.foo.com".data, "ns2.foo.com".data] ∧
    extractDomainInfo c4Input = [] := by
  constructor
  · decide
  · decide

/-- C4 amended: an explicit nameserver block, once found, is attached to
every domain record of the whole document (first conjunct, for every
input); on the concrete input written with the recognized form domeny:
foo.com the extractor returns exactly one record carrying both
nameservers with confidence 0.9 (q09); and with nameservers but no
explicit domain, records are synthesized from the hostnames of website
URLs with confidence 0.8 (q08). -/
theorem C4_nameservers_attached_amended :
    (∀ text d, d ∈ extractDomainInfo text → d.nameservers = findNameservers text) ∧
    extractDomainInfo c4AmendedInput =
      [⟨"foo.com".data, ["ns1.foo.com".data, "ns2.foo.com".data], "domain".data, 37, q09⟩] ∧
    extractDomainInfo c4SynthInput =
      [⟨"bar.com".data, ["ns1.foo.com".data], "domain".data, 24, q08⟩] := by
  refine ⟨?_, by decide, by decide⟩
  intro text d hd
  unfold extractDomainInfo at hd
  split at hd
  · rcases mem_foldl_addDomain _ q08 cap2 _ _ d
        (by simpa [synthDomains] using hd) with h | h
    · exact explicitDomains_ns _ _ d h
    · exact h
  · exact explicitDomains_ns _ _ d hd

/-- C4 witness: the attachment clause applied to the one record of the
amended concrete input. -/
theorem C4_nameservers_attached_witness :
    (⟨"foo.com".data, ["ns1.foo.com".data, "ns2.foo.com".data], "domain".data, 37, q09⟩
      : DomainRec).nameservers = findNameservers c4AmendedInput :=
  C4_nameservers_attached_amended.1 c4AmendedInput _ (by decide)

end CredExtract

/-!
Grouping and flattening: the content round-trip, up to order.
-/

namespace JsonFmt

open JsStr

/-- Flattening applied record-by-record: the formatted version of each
credential with its own (defaulted) client and ticket context attached,
a formatter exception propagating as in the source. -/
def mapFlat (now : List Char) : List Credential → Except (List Char) (List FlatRecord)
  | [] => .ok []
  | c :: rest =>
    match formatByKind now c with
    | .error e => .error e
    | .ok r =>
      match mapFlat now rest with
      | .error e => .error e
      | .ok l => .ok (⟨r, cidOf c, nameOf c, tidOf c⟩ :: l)

/-- flattenClient with the clientName passed explicitly. -/
def flatT (cid nm : List Char) (tks : List (List Char × TicketGroup)) : List FlatRecord :=
  tks.flatMap (fun t => t.2.credentials.map (fun r => ⟨r, cid, nm, t.1⟩))

theorem flattenClient_eq (cid : List Char) (cl : ClientGroup) :
    flattenClient cid cl = flatT cid cl.clientName cl.tickets := rfl

theorem flatT_cons (cid nm : List Char) (p : List Char × TicketGroup)
    (rest : List (List Char × TicketGroup)) :
    flatT cid nm (p :: rest) =
      p.2.credentials.map (fun r => ⟨r, cid, nm, p.1⟩) ++ flatT cid nm rest := rfl

theorem flatT_append (cid nm : List Char) (a b : List (List Char × TicketGroup)) :
    flatT cid nm (a ++ b) = flatT cid nm a ++ flatT cid nm b := by
  simp [flatT]

theorem getA_none_setA (k : List Char) (v : TicketGroup) :
    ∀ tks, getA tks k = none → setA tks k v = tks ++ [(k, v)] := by
  intro tks
  induction tks with
  | nil => intro _; rfl
  | cons p rest ih =>
    intro h
    by_cases hk : p.1 = k
    · exfalso
      simp [getA, List.find?_cons, hk] at h
    · have hk2 : (p.1 == k) = false := beq_eq_false_iff_ne.mpr hk
      simp only [getA, List.find?_cons, hk2] at h
      simp only [setA, hk2, Bool.false_eq_true, if_false, List.cons_append]
      rw [ih h]

theorem T_none (cid nm tid : List Char) (x : FormattedRecord) (d : List Char)
    (tks : List (List Char × TicketGroup)) (h : getA tks tid = none) :
    flatT cid nm (setA tks tid ⟨[x], d⟩) = flatT cid nm tks ++ [⟨x, cid, nm, tid⟩] := by
  rw [getA_none_setA tid _ tks h, flatT_append]
  simp [flatT]

theorem T_some (cid nm tid : List Char) (x : FormattedRecord) :
    ∀ (tks : List (List Char × TicketGroup)) (tk : TicketGroup),
      getA tks tid = some tk →
      List.Perm
        (flatT cid nm (setA tks tid ⟨tk.credentials ++ [x], tk.dateCreated⟩))
        (flatT cid nm tks ++ [⟨x, cid, nm, tid⟩]) := by
  intro tks
  induction tks with
  | nil => intro tk h; simp [getA] at h
  | cons p rest ih =>
    obtain ⟨k0, v0⟩ := p
    intro tk h
    by_cases hk : k0 = tid
    · subst hk
      have htk : tk = v0 := by
        simpa [getA, List.find?_cons] using h.symm
      subst htk
      rw [show setA ((k0, tk) :: rest) k0 ⟨tk.credentials ++ [x], tk.dateCreated⟩
            = (k0, ⟨tk.credentials ++ [x], tk.dateCreated⟩) :: rest from by
          simp only [setA, beq_self_eq_true, if_true]]
      rw [flatT_cons, flatT_cons]
      simp only [List.map_append, List.map_cons, List.map_nil]
      rw [List.append_assoc, List.append_assoc]
      exact List.Perm.append_left _ List.perm_append_comm
    · have hk2 : (k0 == tid) = false := beq_eq_false_iff_ne.mpr hk
      have hrest : getA rest tid = some tk := by
        simp only [getA] at h
        rw [List.find?_cons_of_neg] at h
        · exact h
        · simp [hk2]
      rw [show setA ((k0, v0) :: rest) tid ⟨tk.credentials ++ [x], tk.dateCreated⟩
            = (k0, v0) :: setA rest tid ⟨tk.credentials ++ [x], tk.dateCreated⟩ from by
          simp only [setA, hk2, Bool.false_eq_true, if_false]]
      rw [flatT_cons, flatT_cons, List.append_assoc]
      exact List.Perm.append_left _ (ih tk hrest)

theorem flatG_cons (p : List Char × ClientGroup) (rest : Grouped) :
    flattenGroupedCredentials (p :: rest) =
      flattenClient p.1 p.2 ++ flattenGroupedCredentials rest := rfl

theorem getC_none_setC (k : List Char) (v : ClientGroup) :
    ∀ g : Grouped, getC g k = none → setC g k v = g ++ [(k, v)] := by
  intro g
  induction g with
  | nil => intro _; rfl
  | cons p rest ih =>
    intro h
    by_cases hk : p.1 = k
    · exfalso
      simp [getC, List.find?_cons, hk] at h
    · have hk2 : (p.1 == k) = false := beq_eq_false_iff_ne.mpr hk
      simp only [getC, List.find?_cons, hk2] at h
      simp only [setC, hk2, Bool.false_eq_true, if_false, List.cons_append]
      rw [ih h]

theorem C_none (cid : List Char) (cl : ClientGroup) (g : Grouped)
    (h : getC g cid = none) :
    flattenGroupedCredentials (setC g cid cl) =
      flattenGroupedCredentials g ++ flattenClient cid cl := by
  rw [getC_none_setC cid cl g h]
  simp [flattenGroupedCredentials]

theorem C_some (x : FlatRecord) (cl' : ClientGroup) (cid : List Char) :
    ∀ (g : Grouped) (cl₀ : ClientGroup),
      getC g cid = some cl₀ →
      List.Perm (flattenClient cid cl') (flattenClient cid cl₀ ++ [x]) →
      List.Perm (flattenGroupedCredentials (setC g cid cl'))
        (flattenGroupedCredentials g ++ [x]) := by
  intro g
  induction g with
  | nil => intro cl₀ h _; simp [getC] at h
  | cons p rest ih =>
    obtain ⟨k0, v0⟩ := p
    intro cl₀ h hcl
    by_cases hk : k0 = cid
    · subst hk
      rw [show cl₀ = v0 from by simpa [getC, List.find?_cons] using h.symm] at hcl
      rw [show setC ((k0, v0) :: rest) k0 cl' = (k0, cl') :: rest from by
        simp only [setC, beq_self_eq_true, if_true]]
      rw [flatG_cons, flatG_cons]
      dsimp only
      refine (hcl.append_right (flattenGroupedCredentials rest)).trans ?_
      rw [List.append_assoc, List.append_assoc]
      exact List.Perm.append_left _ List.perm_append_comm
    · have hk2 : (k0 == cid) = false := beq_eq_false_iff_ne.mpr hk
      have hrest : getC rest cid = some cl₀ := by
        simp only [getC] at h
        rw [List.find?_cons_of_neg] at h
        · exact h
        · simp [hk2]
      rw [show setC ((k0, v0) :: rest) cid cl' = (k0, v0) :: setC rest cid cl' from by
        simp only [setC, hk2, Bool.false_eq_true, if_false]]
      rw [flatG_cons, flatG_cons]
      dsimp only
      rw [List.append_assoc]
      exact List.Perm.append_left _ (ih cl₀ hrest hcl)

/-- The clientName the group carries for a credential's client: the one
already stored for that clientId, or, on first sight, the credential's
own (defaulted) name. -/
def insName (g : Grouped) (c : Credential) : List Char :=
  match getC g (cidOf c) with
  | some cl => cl.clientName
  | none => nameOf c

theorem flatten_insert (now : List Char) (g : Grouped) (c : Credential)
    (r : FormattedRecord) :
    List.Perm (flattenGroupedCredentials (insertCredF now g c r))
      (flattenGroupedCredentials g ++
        [⟨r, cidOf c, insName g c, tidOf c⟩]) := by
  unfold insertCredF insName
  cases hg : getC g (cidOf c) with
  | none =>
    simp only [hg]
    rw [C_none _ _ _ hg]
    apply List.Perm.of_eq
    congr 1
  | some cl₀ =>
    simp only [hg]
    cases ht : getA cl₀.tickets (tidOf c) with
    | none =>
      simp only [ht]
      refine C_some _ _ _ g cl₀ hg ?_
      apply List.Perm.of_eq
      rw [flattenClient_eq, flattenClient_eq]
      exact T_none _ _ _ _ _ _ ht
    | some tk₀ =>
      simp only [ht]
      refine C_some _ _ _ g cl₀ hg ?_
      rw [flattenClient_eq, flattenClient_eq]
      exact T_some _ _ _ _ cl₀.tickets tk₀ ht

theorem getC_setC_self (k : List Char) (v : ClientGroup) :
    ∀ g : Grouped, getC (setC g k v) k = some v := by
  intro g
  induction g with
  | nil => simp [getC, setC, List.find?_cons]
  | cons p rest ih =>
    by_cases hk : p.1 = k
    · have hk2 : (p.1 == k) = true := beq_iff_eq.mpr hk
      simp [setC, hk2, getC, List.find?_cons]
    · have hk2 : (p.1 == k) = false := beq_eq_false_iff_ne.mpr hk
      simp only [setC, hk2, Bool.false_eq_true, if_false]
      simp only [getC, List.find?_cons, hk2]
      exact ih

theorem getC_setC_ne (k : List Char) (v : ClientGroup) (k2 : List Char)
    (h : k2 ≠ k) : ∀ g : Grouped, getC (setC g k v) k2 = getC g k2 := by
  have hkk : (k == k2) = false := beq_eq_false_iff_ne.mpr (Ne.symm h)
  intro g
  induction g with
  | nil => simp [getC, setC, List.find?_cons, hkk]
  | cons p rest ih =>
    by_cases hk : p.1 = k
    · have hk2 : (p.1 == k) = true := beq_iff_eq.mpr hk
      have hp2 : (p.1 == k2) = false := by
        rw [show p.1 = k from hk]
        exact hkk
      simp [setC, hk2, getC, List.find?_cons, hkk, hp2]
    · have hk2 : (p.1 == k) = false := beq_eq_false_iff_ne.mpr hk
      simp only [setC, hk2, Bool.false_eq_true, if_false]
      simp only [getC, List.find?_cons] at ih ⊢
      by_cases hp2 : p.1 = k2
      · simp [hp2]
      · have hp3 : (p.1 == k2) = false := beq_eq_false_iff_ne.mpr hp2
        simp only [hp3, Bool.false_eq_true, if_false]
        exact ih

theorem insertCred_getC_self (now : List Char) (g : Grouped) (c : Credential)
    (r : FormattedRecord) :
    ∃ cl, getC (insertCredF now g c r) (cidOf c) = some cl ∧
      cl.clientName = insName g c := by
  unfold insertCredF insName
  cases hg : getC g (cidOf c) <;> simp only [hg] <;>
    exact ⟨_, getC_setC_self _ _ _, rfl⟩

theorem insertCred_getC_ne (now : List Char) (g : Grouped) (c : Credential)
    (r : FormattedRecord) (k : List Char) (h : k ≠ cidOf c) :
    getC (insertCredF now g c r) k = getC g k := by
  unfold insertCredF
  cases hg : getC g (cidOf c) <;> simp only [hg] <;>
    exact getC_setC_ne _ _ _ h _

theorem group_flatten_fold (now : List Char) :
    ∀ (rest processed : List Credential) (g : Grouped),
      (∀ c ∈ processed ++ rest, ∀ d ∈ processed ++ rest,
        cidOf c = cidOf d → nameOf c = nameOf d) →
      (∀ k cl, getC g k = some cl →
        ∃ c0 ∈ processed, cidOf c0 = k ∧ cl.clientName = nameOf c0) →
      ∀ (gfin : Grouped) (l : List FlatRecord),
        groupGo now rest g = .ok gfin → mapFlat now rest = .ok l →
        List.Perm (flattenGroupedCredentials gfin)
          (flattenGroupedCredentials g ++ l) := by
  intro rest
  induction rest with
  | nil =>
    intro processed g _ _ gfin l hg hl
    obtain rfl : g = gfin := by simpa [groupGo] using hg
    obtain rfl : ([] : List FlatRecord) = l := by simpa [mapFlat] using hl
    simp
  | cons c rest' ih =>
    intro processed g hname hinv gfin l hg hl
    unfold groupGo at hg
    unfold mapFlat at hl
    cases hf : formatByKind now c with
    | error e => rw [hf] at hg; simp at hg
    | ok r =>
      rw [hf] at hg hl
      cases hml : mapFlat now rest' with
      | error e => rw [hml] at hl; simp at hl
      | ok l2 =>
        rw [hml] at hl
        have hl2 : (Except.ok (⟨r, cidOf c, nameOf c, tidOf c⟩ :: l2) :
            Except (List Char) (List FlatRecord)) = .ok l := hl
        obtain rfl : (⟨r, cidOf c, nameOf c, tidOf c⟩ :: l2 : List FlatRecord) = l := by
          injection hl2
        have hn : insName g c = nameOf c := by
          unfold insName
          cases hg2 : getC g (cidOf c) with
          | none => rfl
          | some cl₀ =>
            dsimp only
            obtain ⟨c0, hc0, hcid, hnm⟩ := hinv _ _ hg2
            rw [hnm]
            exact hname c0 (List.mem_append.mpr (Or.inl hc0)) c
              (List.mem_append.mpr (Or.inr (List.mem_cons_self _ _))) hcid
        have hname2 : ∀ a ∈ (processed ++ [c]) ++ rest', ∀ b ∈ (processed ++ [c]) ++ rest',
            cidOf a = cidOf b → nameOf a = nameOf b := by
          have he : (processed ++ [c]) ++ rest' = processed ++ (c :: rest') := by simp
          rw [he]
          exact hname
        have hinv2 : ∀ k cl, getC (insertCredF now g c r) k = some cl →
            ∃ c0 ∈ processed ++ [c], cidOf c0 = k ∧ cl.clientName = nameOf c0 := by
          intro k cl hk
          by_cases hkc : k = cidOf c
          · subst hkc
            obtain ⟨cl2, hcl2, hnm2⟩ := insertCred_getC_self now g c r
            rw [hcl2] at hk
            obtain rfl : cl2 = cl := by injection hk
            exact ⟨c, List.mem_append.mpr (Or.inr (List.mem_cons_self _ _)), rfl,
              by rw [hnm2, hn]⟩
          · rw [insertCred_getC_ne now g c r k hkc] at hk
            obtain ⟨c0, hc0, hcid0, hnm0⟩ := hinv k cl hk
            exact ⟨c0, List.mem_append.mpr (Or.inl hc0), hcid0, hnm0⟩
        have hstep := ih (processed ++ [c]) (insertCredF now g c r) hname2 hinv2 gfin l2 hg hml
        refine hstep.trans ?_
        refine ((flatten_insert now g c r).append_right l2).trans ?_
        rw [hn, List.append_assoc]
        apply List.Perm.of_eq
        rfl

/-- A raw FTP credential with client context but no clientId and no
port. -/
def c6raw : Credential :=
  { _type := some "ftp".data, server := some "srv.example.com".data
    username := some "u".data, clientName := some "ACME".data
    ticketId := some "T1".data
    dateExtracted := some "2024-05-05T10:00:00.000Z".data
    confidence := some q09 }

/-- The formatted image of c6raw: the FTP formatter's defaults applied. -/
def c6fmt : FtpFormatted :=
  { type := "ftp".data, server := some "srv.example.com".data
    username := some "u".data, password := none, port := 21
    encryption := "FTP".data
    dateExtracted := "2024-05-05T10:00:00.000Z".data
    confidence := q09 }

/-- The group [c6raw] builds. -/
def c6groupedOne : Grouped :=
  [("unknown".data,
    { clientName := "ACME".data, clientInfoId := none
      dateAdded := "2024-05-05".data
      tickets := [("T1".data,
        { credentials := [.ftp c6fmt], dateCreated := now0 })] })]

/-- C6 counterexample: flatten(group([c6raw])) does not reproduce the
original record with client fields re-attached: the single output record
is the FORMATTED version — it carries port 21 and encryption FTP, which
the original does not have at all — and its clientId is the default text
unknown although the original carries none. -/
theorem C6_counterexample :
    groupCredentialsByClient now0 [c6raw] = .ok c6groupedOne ∧
    flattenGroupedCredentials c6groupedOne =
      [⟨.ftp c6fmt, "unknown".data, "ACME".data, "T1".data⟩] ∧
    c6raw.clientId = none ∧ c6raw.port = none := by
  refine ⟨rfl, by decide, rfl, rfl⟩

/-- C6 amended: provided the records of each client carry one consistent
clientName (the group stores the first-seen name) and the grouping
completes — no website credential with a truthy malformed url makes the
formatter inside the push throw — flatten(group(rs)) reproduces, up to
order across groups, one record per input: not the original record, but
its per-kind FORMATTED version, with clientId defaulted to unknown, the
client's (defaulted) clientName, and ticketId defaulted to general
attached (mapFlat). -/
theorem C6_flatten_group_formats_amended (now : List Char) (rs : List Credential)
    (g : Grouped) (l : List FlatRecord)
    (hname : ∀ c ∈ rs, ∀ d ∈ rs, cidOf c = cidOf d → nameOf c = nameOf d)
    (hg : groupCredentialsByClient now rs = .ok g)
    (hl : mapFlat now rs = .ok l) :
    List.Perm (flattenGroupedCredentials g) l := by
  have h := group_flatten_fold now rs [] []
    (by simpa using hname)
    (by intro k cl hcl; simp [getC] at hcl)
    g l hg hl
  simpa using h

/-- The group [c6raw, c6raw] builds. -/
def c6groupedTwo : Grouped :=
  [("unknown".data,
    { clientName := "ACME".data, clientInfoId := none
      dateAdded := "2024-05-05".data
      tickets := [("T1".data,
        { credentials := [.ftp c6fmt, .ftp c6fmt], dateCreated := now0 })] })]

/-- The flat record each copy of c6raw contributes. -/
def c6flat : FlatRecord := ⟨.ftp c6fmt, "unknown".data, "ACME".data, "T1".data⟩

/-- C6 witness: the amended round-trip applied at a concrete two-record
input sharing one client, on which the grouping completes. -/
theorem C6_flatten_group_witness :
    List.Perm (flattenGroupedCredentials c6groupedTwo) [c6flat, c6flat] :=
  C6_flatten_group_formats_amended now0 [c6raw, c6raw] c6groupedTwo [c6flat, c6flat]
    (by decide) rfl rfl

end JsonFmt

namespace CredExtract

open JsStr JsRegex

/-- Sanity: on blank input the guard of lines 15-26 returns the empty
record immediately; the while loops never run. -/
theorem extractAll_empty_input_ok :
    extractAllCredentialsF 1 [] = some (.ok emptyAll) := rfl

/-- Sanity: the credential-association step of the FTP extractor (lines
104-148) is reachable through the IP-address path, whose regex is
global, and there it behaves as specified: a candidate is emitted
because a username resolves, the port defaults to 21 and the confidence
is 0.9 (q09) because a password also resolves. -/
theorem ftp_ip_path_example :
    extractFtpCredentialsF 1 "adres IP: 10.0.0.1 ftp\nlogin: u\nhasło: p".data =
      some [⟨"10.0.0.1".data, "u".data, some "p".data, 21, "ftp".data, q09⟩] := by
  decide

end CredExtract
